import Mathlib

/-
  Verification development for the lilycraph animated-eyes engine.

  The repository holds two near-identical Python variants of the same
  engine: `roboeyes.py` (namespace `RE` below) and `anim.py` (namespace
  `AN` below).  Both are shallowly embedded here over a common state
  record `Eyes`; Python floats are modelled as exact rationals, Python
  `int(_)` truncation and `_ // _` floor division are modelled
  explicitly.  The body of `drawEyes` is one tick of the engine; it is
  split into the stages of the source in source order, composed by
  `advance`.  The random draws of `random.randint` are supplied by an
  `Oracle`; a call whose `randint` bounds are in the wrong order raises
  in Python, which is modelled by `tick` returning `none`.
-/

set_option maxHeartbeats 1600000

/-- Python `int(x)` on a float: truncation toward zero. -/
def pyIntQ (q : ℚ) : ℚ := if 0 ≤ q then (q.floor : ℚ) else (q.ceil : ℚ)

/-- Python `x // 2`: floor division by two (on ints and floats alike). -/
def pyFDiv2 (q : ℚ) : ℚ := ((q / 2).floor : ℚ)

/-- Whether a rational is integer-valued.  `random.randint(0, n)` raises
unless `n` behaves as an integer: a non-integral float bound raises
`ValueError` in CPython, so a bound passes only when it is a whole
number.  (CPython 3.12 and later reject any float bound outright — a
type distinction between `int` and an integral-valued `float` that this
rational embedding does not track; success statements therefore read as
the pre-3.12 semantics.) -/
def isWholeQ (q : ℚ) : Bool := decide ((q.floor : ℚ) = q)

/-- A primitive shape handed to the drawing collaborator. -/
inductive Shape where
  | rect (x0 y0 x1 y1 : ℚ) (color : ℕ)
  | rrect (x0 y0 x1 y1 rad : ℚ) (color : ℕ)
  | tri (p1x p1y p2x p2y p3x p3y : ℚ) (color : ℕ)

/-- The shape list emitted by one render pass. -/
structure Frame where
  bg : Shape
  eyeL : Shape
  eyeR : Option Shape
  tiredLids : List Shape
  angryLids : List Shape
  happyLids : List Shape

/-- The full mutable state of a `RoboEyes` instance (the attribute set is
identical in the two source variants). -/
structure Eyes where
  screenWidth : ℚ
  screenHeight : ℚ
  frameInterval : ℚ
  fpsTimer : ℚ
  tired : Bool
  angry : Bool
  happy : Bool
  curious : Bool
  cyclops : Bool
  eyeL_open : Bool
  eyeR_open : Bool
  eyeLwidthDefault : ℚ
  eyeLheightDefault : ℚ
  eyeLwidthCurrent : ℚ
  eyeLheightCurrent : ℚ
  eyeLwidthNext : ℚ
  eyeLheightNext : ℚ
  eyeLheightOffset : ℚ
  eyeLborderRadiusDefault : ℚ
  eyeLborderRadiusCurrent : ℚ
  eyeLborderRadiusNext : ℚ
  eyeRwidthDefault : ℚ
  eyeRheightDefault : ℚ
  eyeRwidthCurrent : ℚ
  eyeRheightCurrent : ℚ
  eyeRwidthNext : ℚ
  eyeRheightNext : ℚ
  eyeRheightOffset : ℚ
  eyeRborderRadiusDefault : ℚ
  eyeRborderRadiusCurrent : ℚ
  eyeRborderRadiusNext : ℚ
  spaceBetweenDefault : ℚ
  spaceBetweenCurrent : ℚ
  spaceBetweenNext : ℚ
  eyeLxDefault : ℚ
  eyeLyDefault : ℚ
  eyeLx : ℚ
  eyeLy : ℚ
  eyeLxNext : ℚ
  eyeLyNext : ℚ
  eyeRxDefault : ℚ
  eyeRyDefault : ℚ
  eyeRx : ℚ
  eyeRy : ℚ
  eyeRxNext : ℚ
  eyeRyNext : ℚ
  eyelidsHeightMax : ℚ
  eyelidsTiredHeight : ℚ
  eyelidsTiredHeightNext : ℚ
  eyelidsAngryHeight : ℚ
  eyelidsAngryHeightNext : ℚ
  eyelidsHappyBottomOffsetMax : ℚ
  eyelidsHappyBottomOffset : ℚ
  eyelidsHappyBottomOffsetNext : ℚ
  hFlicker : Bool
  hFlickerAlternate : Bool
  hFlickerAmplitude : ℚ
  vFlicker : Bool
  vFlickerAlternate : Bool
  vFlickerAmplitude : ℚ
  autoblinker : Bool
  blinkInterval : ℚ
  blinkIntervalVariation : ℚ
  blinktimer : ℚ
  idle : Bool
  idleInterval : ℚ
  idleIntervalVariation : ℚ
  idleAnimationTimer : ℚ
  confused : Bool
  confusedAnimationTimer : ℚ
  confusedAnimationDuration : ℚ
  confusedToggle : Bool
  laugh : Bool
  laughAnimationTimer : ℚ
  laughAnimationDuration : ℚ
  laughToggle : Bool

/-- The values drawn by `random.randint` during one tick. -/
structure Oracle where
  blinkJit : ℚ
  idleX : ℚ
  idleY : ℚ
  idleJit : ℚ

/-- `getScreenConstraint_X`: max x position for the left eye
(identical in both variants, computed from current widths and space). -/
def getScreenConstraint_X (s : Eyes) : ℚ :=
  s.screenWidth - s.eyeLwidthCurrent - s.spaceBetweenCurrent - s.eyeRwidthCurrent

/-- `getScreenConstraint_Y`: max y position for the left eye. -/
def getScreenConstraint_Y (s : Eyes) : ℚ :=
  s.screenHeight - s.eyeLheightDefault

/-- `close(left, right)`: retarget height to 1 and clear the open flag
(identical in both variants). -/
def close (s : Eyes) (left right : Bool) : Eyes :=
  let s1 := if left then { s with eyeLheightNext := 1, eyeL_open := false } else s
  if right then { s1 with eyeRheightNext := 1, eyeR_open := false } else s1

/-- `open(left, right)`: set the open flags, eye height is grown back by
the tween inside `drawEyes` (identical in both variants). -/
def openEyes (s : Eyes) (left right : Bool) : Eyes :=
  let s1 := if left then { s with eyeL_open := true } else s
  if right then { s1 with eyeR_open := true } else s1

/-- `blink(left, right)` = `close` then `open` (identical in both variants). -/
def blink (s : Eyes) (left right : Bool) : Eyes :=
  openEyes (close s left right) left right

/-- Autoblinker block of `drawEyes`: if enabled and due, blink both eyes and
reschedule `blinktimer` (identical in both variants). -/
def autoblinkStep (s : Eyes) (now : ℚ) (o : Oracle) : Eyes :=
  if s.autoblinker = true ∧ s.blinktimer ≤ now then
    { blink s true true with
        blinktimer := now + s.blinkInterval * 1000 + o.blinkJit * 1000 }
  else s

/-- Laughter block of `drawEyes`: two-phase one-shot driving the vertical
flicker (identical in both variants). -/
def laughStep (s : Eyes) (now : ℚ) : Eyes :=
  if s.laugh = true then
    if s.laughToggle = true then
      { s with vFlicker := true, vFlickerAmplitude := 5,
               laughAnimationTimer := now, laughToggle := false }
    else if s.laughAnimationTimer + s.laughAnimationDuration ≤ now then
      { s with vFlicker := false, vFlickerAmplitude := 0,
               laughToggle := true, laugh := false }
    else s
  else s

/-- Confusion block of `drawEyes`: two-phase one-shot driving the horizontal
flicker (identical in both variants). -/
def confusedStep (s : Eyes) (now : ℚ) : Eyes :=
  if s.confused = true then
    if s.confusedToggle = true then
      { s with hFlicker := true, hFlickerAmplitude := 20,
               confusedAnimationTimer := now, confusedToggle := false }
    else if s.confusedAnimationTimer + s.confusedAnimationDuration ≤ now then
      { s with hFlicker := false, hFlickerAmplitude := 0,
               confusedToggle := true, confused := false }
    else s
  else s

/-- Idle block of `drawEyes`: if enabled and due, pick a random gaze target
and reschedule (identical in both variants).  The two `randint` draws are
supplied by the oracle; `tick` separately models the exception the real
`randint` raises when a bound is negative. -/
def idleStep (s : Eyes) (now : ℚ) (o : Oracle) : Eyes :=
  if s.idle = true ∧ s.idleAnimationTimer ≤ now then
    { s with eyeLxNext := o.idleX, eyeLyNext := o.idleY,
             idleAnimationTimer := now + s.idleInterval * 1000 + o.idleJit * 1000 }
  else s

/-- Horizontal flicker application: displace both x positions by the
amplitude, sign given by the alternation flag, then flip the flag
(identical in both variants). -/
def hFlickStep (s : Eyes) : Eyes :=
  if s.hFlicker = true then
    if s.hFlickerAlternate = true then
      { s with eyeLx := s.eyeLx + s.hFlickerAmplitude,
               eyeRx := s.eyeRx + s.hFlickerAmplitude, hFlickerAlternate := false }
    else
      { s with eyeLx := s.eyeLx - s.hFlickerAmplitude,
               eyeRx := s.eyeRx - s.hFlickerAmplitude, hFlickerAlternate := true }
  else s

/-- Vertical flicker application, symmetric on y (identical in both variants). -/
def vFlickStep (s : Eyes) : Eyes :=
  if s.vFlicker = true then
    if s.vFlickerAlternate = true then
      { s with eyeLy := s.eyeLy + s.vFlickerAmplitude,
               eyeRy := s.eyeRy + s.vFlickerAmplitude, vFlickerAlternate := false }
    else
      { s with eyeLy := s.eyeLy - s.vFlickerAmplitude,
               eyeRy := s.eyeRy - s.vFlickerAmplitude, vFlickerAlternate := true }
  else s

/-- Cyclops block of `drawEyes`: zero the right eye size and the space
between the eyes (identical in both variants). -/
def cyclopsStep (s : Eyes) : Eyes :=
  if s.cyclops = true then
    { s with eyeRwidthCurrent := 0, eyeRheightCurrent := 0, spaceBetweenCurrent := 0 }
  else s

/-- Eyelid tweening performed during the render pass: each eyelid magnitude
converges halfway toward its target (identical in both variants). -/
def lidTweenStep (s : Eyes) : Eyes :=
  { s with
      eyelidsTiredHeight := (s.eyelidsTiredHeight + s.eyelidsTiredHeightNext) / 2,
      eyelidsAngryHeight := (s.eyelidsAngryHeight + s.eyelidsAngryHeightNext) / 2,
      eyelidsHappyBottomOffset :=
        (s.eyelidsHappyBottomOffset + s.eyelidsHappyBottomOffsetNext) / 2 }

namespace RE

/-- roboeyes.py lines 418-437: curious-gaze height offsets.  The left eye
widens when pinned far left, or far right in cyclops mode; the right eye
widens far right only when not in cyclops mode. -/
def curiousStep (s : Eyes) : Eyes :=
  if s.curious = true then
    let lOff : ℚ :=
      if s.eyeLxNext ≤ 10 then 8
      else if s.screenWidth - s.eyeLwidthCurrent - 10 ≤ s.eyeLxNext ∧ s.cyclops = true then 8
      else 0
    let rOff : ℚ :=
      if s.cyclops = false ∧ s.screenWidth - s.eyeRwidthCurrent - 10 ≤ s.eyeRxNext then 8
      else 0
    { s with eyeLheightOffset := lOff, eyeRheightOffset := rOff }
  else
    { s with eyeLheightOffset := 0, eyeRheightOffset := 0 }

/-- roboeyes.py lines 439-481: the per-tick convergence ("tweening") of all
current/next pairs, with the re-open rule between the height and width
tweens.  The right eye's next position is re-derived from the left eye's
target and the freshly tweened width and space. -/
def tweenStep (s : Eyes) : Eyes :=
  let hL := (s.eyeLheightCurrent + s.eyeLheightNext + s.eyeLheightOffset) / 2
  let hR := (s.eyeRheightCurrent + s.eyeRheightNext + s.eyeRheightOffset) / 2
  let hLNext :=
    if s.eyeL_open = true ∧ hL ≤ 1 + s.eyeLheightOffset then s.eyeLheightDefault
    else s.eyeLheightNext
  let hRNext :=
    if s.eyeR_open = true ∧ hR ≤ 1 + s.eyeRheightOffset then s.eyeRheightDefault
    else s.eyeRheightNext
  let wL := (s.eyeLwidthCurrent + s.eyeLwidthNext) / 2
  let wR := (s.eyeRwidthCurrent + s.eyeRwidthNext) / 2
  let sp := (s.spaceBetweenCurrent + s.spaceBetweenNext) / 2
  let lx := (s.eyeLx + s.eyeLxNext) / 2
  let ly := (s.eyeLy + s.eyeLyNext) / 2
  let rxN := s.eyeLxNext + wL + sp
  let ryN := s.eyeLyNext
  let rx := (s.eyeRx + rxN) / 2
  let ry := (s.eyeRy + ryN) / 2
  let rL := (s.eyeLborderRadiusCurrent + s.eyeLborderRadiusNext) / 2
  let rR := (s.eyeRborderRadiusCurrent + s.eyeRborderRadiusNext) / 2
  { s with
      eyeLheightCurrent := hL, eyeRheightCurrent := hR,
      eyeLheightNext := hLNext, eyeRheightNext := hRNext,
      eyeLwidthCurrent := wL, eyeRwidthCurrent := wR,
      spaceBetweenCurrent := sp,
      eyeLx := lx, eyeLy := ly,
      eyeRxNext := rxN, eyeRyNext := ryN,
      eyeRx := rx, eyeRy := ry,
      eyeLborderRadiusCurrent := rL, eyeRborderRadiusCurrent := rR }

/-- roboeyes.py lines 583-586: the state mutation done during the render
pass.  This variant only tweens the eyelid magnitudes; its `drawEyes`
never reads the mood flags, so the eyelid targets are never re-derived. -/
def renderState (s : Eyes) : Eyes := lidTweenStep s

/-- roboeyes.py lines 547-661: the shape list of one render pass, taken on
the state after `renderState`.  The vertical recentring offsets (lines
446 and 450) only enter the drawn y coordinates here; they are never
stored back into the state. -/
def frameOf (t : Eyes) : Frame :=
  let offL := pyFDiv2 (t.eyeLheightDefault - t.eyeLheightCurrent) - pyFDiv2 t.eyeLheightOffset
  let offR := pyFDiv2 (t.eyeRheightDefault - t.eyeRheightCurrent) - pyFDiv2 t.eyeRheightOffset
  let elx := pyIntQ t.eyeLx
  let ely := pyIntQ (t.eyeLy + offL)
  let elw := pyIntQ t.eyeLwidthCurrent
  let elh := pyIntQ t.eyeLheightCurrent
  let elr := pyIntQ t.eyeLborderRadiusCurrent
  let erx := pyIntQ t.eyeRx
  let ery := pyIntQ (t.eyeRy + offR)
  let erw := pyIntQ t.eyeRwidthCurrent
  let erh := pyIntQ t.eyeRheightCurrent
  let err := pyIntQ t.eyeRborderRadiusCurrent
  { bg := Shape.rect 0 0 t.screenWidth t.screenHeight 0
    eyeL := Shape.rrect elx ely (elx + elw) (ely + elh) elr 1
    eyeR :=
      if t.cyclops = true then none
      else some (Shape.rrect erx ery (erx + erw) (ery + erh) err 1)
    tiredLids :=
      if 0 < t.eyelidsTiredHeight then
        if t.cyclops = true then
          [Shape.tri elx (ely - 1) (elx + pyFDiv2 elw) (ely - 1)
             elx (ely + pyIntQ t.eyelidsTiredHeight - 1) 0,
           Shape.tri (elx + pyFDiv2 elw) (ely - 1) (elx + elw) (ely - 1)
             (elx + elw) (ely + pyIntQ t.eyelidsTiredHeight - 1) 0]
        else
          [Shape.tri elx (ely - 1) (elx + elw) (ely - 1)
             elx (ely + pyIntQ t.eyelidsTiredHeight - 1) 0,
           Shape.tri erx (ery - 1) (erx + erw) (ery - 1)
             (erx + erw) (ery + pyIntQ t.eyelidsTiredHeight - 1) 0]
      else []
    angryLids :=
      if 0 < t.eyelidsAngryHeight then
        if t.cyclops = true then
          [Shape.tri elx (ely - 1) (elx + pyFDiv2 elw) (ely - 1)
             (elx + pyFDiv2 elw) (ely + pyIntQ t.eyelidsAngryHeight - 1) 0,
           Shape.tri (elx + pyFDiv2 elw) (ely - 1) (elx + elw) (ely - 1)
             (elx + pyFDiv2 elw) (ely + pyIntQ t.eyelidsAngryHeight - 1) 0]
        else
          [Shape.tri elx (ely - 1) (elx + elw) (ely - 1)
             (elx + elw) (ely + pyIntQ t.eyelidsAngryHeight - 1) 0,
           Shape.tri erx (ery - 1) (erx + erw) (ery - 1)
             erx (ery + pyIntQ t.eyelidsAngryHeight - 1) 0]
      else []
    happyLids :=
      if 0 < t.eyelidsHappyBottomOffset then
        Shape.rrect (elx - 1) (ely + elh - pyIntQ t.eyelidsHappyBottomOffset + 1)
            (elx + elw + 2) (ely + t.eyeLheightDefault) elr 0 ::
          (if t.cyclops = true then []
           else
            [Shape.rrect (erx - 1) (ery + erh - pyIntQ t.eyelidsHappyBottomOffset + 1)
               (erx + erw + 2) (ery + t.eyeRheightDefault) err 0])
      else [] }

/-- One successful pass of roboeyes.py `drawEyes`, stage by stage in
source order. -/
def advance (s : Eyes) (now : ℚ) (o : Oracle) : Eyes × Frame :=
  let t :=
    cyclopsStep (vFlickStep (hFlickStep (idleStep
      (confusedStep (laughStep (autoblinkStep (tweenStep (curiousStep s)) now o) now) now)
      now o)))
  let r := renderState t
  (r, frameOf r)

/-- The conditions under which roboeyes.py `drawEyes` raises: a
`random.randint(0, n)` call whose upper bound is negative (empty range)
or not integer-valued (see `isWholeQ`) — the blink jitter, the idle gaze
target bounds `getScreenConstraint_X` and `getScreenConstraint_Y`
(floats that are non-integral whenever a width, space or height tween is
in flight), and the idle jitter. -/
def tickFails (s : Eyes) (now : ℚ) : Bool :=
  let mid := tweenStep (curiousStep s)
  (mid.autoblinker && decide (mid.blinktimer ≤ now)
      && (decide (mid.blinkIntervalVariation < 0)
          || !(isWholeQ mid.blinkIntervalVariation)))
  || (mid.idle && decide (mid.idleAnimationTimer ≤ now)
      && (decide (getScreenConstraint_X mid < 0)
          || !(isWholeQ (getScreenConstraint_X mid))
          || decide (getScreenConstraint_Y mid < 0)
          || !(isWholeQ (getScreenConstraint_Y mid))
          || decide (mid.idleIntervalVariation < 0)
          || !(isWholeQ mid.idleIntervalVariation)))

/-- One call of roboeyes.py `drawEyes`; `none` models the call raising. -/
def tick (s : Eyes) (now : ℚ) (o : Oracle) : Option (Eyes × Frame) :=
  if tickFails s now = true then none else some (advance s now o)

/-- roboeyes.py lines 263-273: `setMood` clears all three flags and sets
the one selected (1 = tired, 2 = angry, 3 = happy). -/
def setMood (s : Eyes) (mood : ℤ) : Eyes :=
  let s0 := { s with tired := false, angry := false, happy := false }
  if mood = 1 then { s0 with tired := true }
  else if mood = 2 then { s0 with angry := true }
  else if mood = 3 then { s0 with happy := true }
  else s0

/-- roboeyes.py lines 235-237: `setFramerate` computes `1000 // fps`
with no validation; `none` models the `ZeroDivisionError` at fps = 0. -/
def setFramerate (s : Eyes) (fps : ℤ) : Option Eyes :=
  if fps = 0 then none
  else some { s with frameInterval := ((Int.fdiv 1000 fps : ℤ) : ℚ) }

/-- roboeyes.py lines 393-396: `anim_confused` sets the active flag and
resets the toggle so the next tick re-enters the activation branch. -/
def anim_confused (s : Eyes) : Eyes :=
  { s with confused := true, confusedToggle := true }

/-- roboeyes.py `__init__` (lines 66-188) for a display of the given
size; timers that the source seeds from the wall clock start at 0. -/
def init (w h : ℚ) : Eyes :=
  let lx := pyFDiv2 (w - (36 + 10 + 36))
  let ly := pyFDiv2 (h - 36)
  let rx := lx + 36 + 10
  { screenWidth := w, screenHeight := h, frameInterval := 20, fpsTimer := 0,
    tired := false, angry := false, happy := false,
    curious := false, cyclops := false, eyeL_open := false, eyeR_open := false,
    eyeLwidthDefault := 36, eyeLheightDefault := 36,
    eyeLwidthCurrent := 36, eyeLheightCurrent := 1,
    eyeLwidthNext := 36, eyeLheightNext := 36, eyeLheightOffset := 0,
    eyeLborderRadiusDefault := 8, eyeLborderRadiusCurrent := 8, eyeLborderRadiusNext := 8,
    eyeRwidthDefault := 36, eyeRheightDefault := 36,
    eyeRwidthCurrent := 36, eyeRheightCurrent := 1,
    eyeRwidthNext := 36, eyeRheightNext := 36, eyeRheightOffset := 0,
    eyeRborderRadiusDefault := 8, eyeRborderRadiusCurrent := 8, eyeRborderRadiusNext := 8,
    spaceBetweenDefault := 10, spaceBetweenCurrent := 10, spaceBetweenNext := 10,
    eyeLxDefault := lx, eyeLyDefault := ly,
    eyeLx := lx, eyeLy := ly, eyeLxNext := lx, eyeLyNext := ly,
    eyeRxDefault := rx, eyeRyDefault := ly,
    eyeRx := rx, eyeRy := ly, eyeRxNext := rx, eyeRyNext := ly,
    eyelidsHeightMax := 18,
    eyelidsTiredHeight := 0, eyelidsTiredHeightNext := 0,
    eyelidsAngryHeight := 0, eyelidsAngryHeightNext := 0,
    eyelidsHappyBottomOffsetMax := 21,
    eyelidsHappyBottomOffset := 0, eyelidsHappyBottomOffsetNext := 0,
    hFlicker := false, hFlickerAlternate := false, hFlickerAmplitude := 2,
    vFlicker := false, vFlickerAlternate := false, vFlickerAmplitude := 10,
    autoblinker := false, blinkInterval := 1, blinkIntervalVariation := 4, blinktimer := 0,
    idle := false, idleInterval := 1, idleIntervalVariation := 3, idleAnimationTimer := 0,
    confused := false, confusedAnimationTimer := 0, confusedAnimationDuration := 500,
    confusedToggle := true,
    laugh := false, laughAnimationTimer := 0, laughAnimationDuration := 500,
    laughToggle := true }

end RE

namespace AN

/-- anim.py lines 325-340: curious-gaze height offsets.  The left elif
compares against `getScreenConstraint_X() - 10` (pre-tween currents) and
is gated on cyclops; the right-eye check is NOT gated on cyclops in this
variant. -/
def curiousStep (s : Eyes) : Eyes :=
  if s.curious = true then
    let lOff : ℚ :=
      if s.eyeLxNext ≤ 10 then 8
      else if getScreenConstraint_X s - 10 ≤ s.eyeLxNext ∧ s.cyclops = true then 8
      else 0
    let rOff : ℚ :=
      if s.screenWidth - s.eyeRwidthCurrent - 10 ≤ s.eyeRxNext then 8
      else 0
    { s with eyeLheightOffset := lOff, eyeRheightOffset := rOff }
  else
    { s with eyeLheightOffset := 0, eyeRheightOffset := 0 }

/-- anim.py lines 342-384: the per-tick convergence.  Unlike roboeyes.py,
this variant folds the vertical recentring term
`(heightDefault - heightCurrent)/2 - heightOffset/2` into the stored
`eyeLy`/`eyeRy` (lines 370-371 and 378-379). -/
def tweenStep (s : Eyes) : Eyes :=
  let hL := (s.eyeLheightCurrent + s.eyeLheightNext + s.eyeLheightOffset) / 2
  let hR := (s.eyeRheightCurrent + s.eyeRheightNext + s.eyeRheightOffset) / 2
  let hLNext :=
    if s.eyeL_open = true ∧ hL ≤ 1 + s.eyeLheightOffset then s.eyeLheightDefault
    else s.eyeLheightNext
  let hRNext :=
    if s.eyeR_open = true ∧ hR ≤ 1 + s.eyeRheightOffset then s.eyeRheightDefault
    else s.eyeRheightNext
  let wL := (s.eyeLwidthCurrent + s.eyeLwidthNext) / 2
  let wR := (s.eyeRwidthCurrent + s.eyeRwidthNext) / 2
  let sp := (s.spaceBetweenCurrent + s.spaceBetweenNext) / 2
  let lx := (s.eyeLx + s.eyeLxNext) / 2
  let ly := (s.eyeLy + s.eyeLyNext) / 2
      + ((s.eyeLheightDefault - hL) / 2 - s.eyeLheightOffset / 2)
  let rxN := s.eyeLxNext + wL + sp
  let ryN := s.eyeLyNext
  let rx := (s.eyeRx + rxN) / 2
  let ry := (s.eyeRy + ryN) / 2
      + ((s.eyeRheightDefault - hR) / 2 - s.eyeRheightOffset / 2)
  let rL := (s.eyeLborderRadiusCurrent + s.eyeLborderRadiusNext) / 2
  let rR := (s.eyeRborderRadiusCurrent + s.eyeRborderRadiusNext) / 2
  { s with
      eyeLheightCurrent := hL, eyeRheightCurrent := hR,
      eyeLheightNext := hLNext, eyeRheightNext := hRNext,
      eyeLwidthCurrent := wL, eyeRwidthCurrent := wR,
      spaceBetweenCurrent := sp,
      eyeLx := lx, eyeLy := ly,
      eyeRxNext := rxN, eyeRyNext := ryN,
      eyeRx := rx, eyeRy := ry,
      eyeLborderRadiusCurrent := rL, eyeRborderRadiusCurrent := rR }

/-- anim.py lines 474-489: eyelid target derivation from the mood flags,
using the left eye's freshly tweened height.  The three Python if/else
blocks are modelled sequentially, preserving the overwrite of
`eyelidsTiredHeightNext` by the angry block. -/
def moodStep (s : Eyes) : Eyes :=
  let s1 :=
    if s.tired = true then
      { s with eyelidsTiredHeightNext := s.eyeLheightCurrent / 2,
               eyelidsAngryHeightNext := 0 }
    else { s with eyelidsTiredHeightNext := 0 }
  let s2 :=
    if s1.angry = true then
      { s1 with eyelidsAngryHeightNext := s1.eyeLheightCurrent / 2,
                eyelidsTiredHeightNext := 0 }
    else { s1 with eyelidsAngryHeightNext := 0 }
  if s2.happy = true then
    { s2 with eyelidsHappyBottomOffsetNext := s2.eyeLheightCurrent / 2 }
  else { s2 with eyelidsHappyBottomOffsetNext := 0 }

/-- anim.py lines 473-517: the state mutation done during the render pass:
mood-derived eyelid targets, then the eyelid tween. -/
def renderState (s : Eyes) : Eyes := lidTweenStep (moodStep s)

/-- anim.py lines 452-525: the shape list of one render pass, on the state
after `renderState`.  Eyes are drawn at the stored coordinates (the
recentring was already folded into them); eyelids are drawn
unconditionally in this variant, with raw float magnitudes. -/
def frameOf (t : Eyes) : Frame :=
  let elx := pyIntQ t.eyeLx
  let ely := pyIntQ t.eyeLy
  let elw := pyIntQ t.eyeLwidthCurrent
  let elh := pyIntQ t.eyeLheightCurrent
  let elr := pyIntQ t.eyeLborderRadiusCurrent
  let erx := pyIntQ t.eyeRx
  let ery := pyIntQ t.eyeRy
  let erw := pyIntQ t.eyeRwidthCurrent
  let erh := pyIntQ t.eyeRheightCurrent
  let err := pyIntQ t.eyeRborderRadiusCurrent
  { bg := Shape.rect 0 0 t.screenWidth t.screenHeight 0
    eyeL := Shape.rrect elx ely (elx + elw) (ely + elh) elr 1
    eyeR :=
      if t.cyclops = true then none
      else some (Shape.rrect erx ery (erx + erw) (ery + erh) err 1)
    tiredLids :=
      if t.cyclops = true then
        [Shape.tri elx (ely - 1) (elx + elw / 2) (ely - 1)
           elx (ely + t.eyelidsTiredHeight - 1) 0,
         Shape.tri (elx + elw / 2) (ely - 1) (elx + elw) (ely - 1)
           (elx + elw) (ely + t.eyelidsTiredHeight - 1) 0]
      else
        [Shape.tri elx (ely - 1) (elx + elw) (ely - 1)
           elx (ely + t.eyelidsTiredHeight - 1) 0,
         Shape.tri erx (ery - 1) (erx + erw) (ery - 1)
           (erx + erw) (ery + t.eyelidsTiredHeight - 1) 0]
    angryLids :=
      if t.cyclops = true then
        [Shape.tri elx (ely - 1) (elx + elw / 2) (ely - 1)
           (elx + elw / 2) (ely + t.eyelidsAngryHeight - 1) 0,
         Shape.tri (elx + elw / 2) (ely - 1) (elx + elw) (ely - 1)
           (elx + elw / 2) (ely + t.eyelidsAngryHeight - 1) 0]
      else
        [Shape.tri elx (ely - 1) (elx + elw) (ely - 1)
           (elx + elw) (ely + t.eyelidsAngryHeight - 1) 0,
         Shape.tri erx (ery - 1) (erx + erw) (ery - 1)
           erx (ery + t.eyelidsAngryHeight - 1) 0]
    happyLids :=
      Shape.rrect (elx - 1) (ely + elh - t.eyelidsHappyBottomOffset + 1)
          (elx + elw + 2) (ely + t.eyeLheightDefault) elr 0 ::
        (if t.cyclops = true then []
         else
          [Shape.rrect (erx - 1) (ery + erh - t.eyelidsHappyBottomOffset + 1)
             (erx + erw + 2) (ery + t.eyeRheightDefault) err 0]) }

/-- One successful pass of anim.py `drawEyes`, stage by stage in source
order. -/
def advance (s : Eyes) (now : ℚ) (o : Oracle) : Eyes × Frame :=
  let t :=
    cyclopsStep (vFlickStep (hFlickStep (idleStep
      (confusedStep (laughStep (autoblinkStep (tweenStep (curiousStep s)) now o) now) now)
      now o)))
  let r := renderState t
  (r, frameOf r)

/-- The conditions under which anim.py `drawEyes` raises: a
`random.randint(0, n)` call whose upper bound is negative (empty range)
or not integer-valued (see `isWholeQ`). -/
def tickFails (s : Eyes) (now : ℚ) : Bool :=
  let mid := tweenStep (curiousStep s)
  (mid.autoblinker && decide (mid.blinktimer ≤ now)
      && (decide (mid.blinkIntervalVariation < 0)
          || !(isWholeQ mid.blinkIntervalVariation)))
  || (mid.idle && decide (mid.idleAnimationTimer ≤ now)
      && (decide (getScreenConstraint_X mid < 0)
          || !(isWholeQ (getScreenConstraint_X mid))
          || decide (getScreenConstraint_Y mid < 0)
          || !(isWholeQ (getScreenConstraint_Y mid))
          || decide (mid.idleIntervalVariation < 0)
          || !(isWholeQ mid.idleIntervalVariation)))

/-- One call of anim.py `drawEyes`; `none` models the call raising. -/
def tick (s : Eyes) (now : ℚ) (o : Oracle) : Option (Eyes × Frame) :=
  if tickFails s now = true then none else some (advance s now o)

/-- anim.py lines 210-214: `setMood` assigns each flag by comparing the
argument with its mood constant. -/
def setMood (s : Eyes) (mood : ℤ) : Eyes :=
  { s with tired := mood == 1, angry := mood == 2, happy := mood == 3 }

/-- anim.py lines 185-186: `setFramerate` computes `1000 / fps` with no
validation; `none` models the `ZeroDivisionError` at fps = 0. -/
def setFramerate (s : Eyes) (fps : ℚ) : Option Eyes :=
  if fps = 0 then none
  else some { s with frameInterval := 1000 / fps }

/-- anim.py lines 314-315: `anim_confused` sets the active flag only; the
toggle is NOT reset in this variant. -/
def anim_confused (s : Eyes) : Eyes :=
  { s with confused := true }

/-- anim.py `__init__` (lines 50-145) for a display of the given size;
this variant starts with `eyeLwidthCurrent = eyeRwidthCurrent = 1`. -/
def init (w h : ℚ) : Eyes :=
  let lx := pyFDiv2 (w - (36 + 10 + 36))
  let ly := pyFDiv2 (h - 36)
  let rx := lx + 36 + 10
  { screenWidth := w, screenHeight := h, frameInterval := 20, fpsTimer := 0,
    tired := false, angry := false, happy := false,
    curious := false, cyclops := false, eyeL_open := false, eyeR_open := false,
    eyeLwidthDefault := 36, eyeLheightDefault := 36,
    eyeLwidthCurrent := 1, eyeLheightCurrent := 1,
    eyeLwidthNext := 36, eyeLheightNext := 36, eyeLheightOffset := 0,
    eyeLborderRadiusDefault := 8, eyeLborderRadiusCurrent := 8, eyeLborderRadiusNext := 8,
    eyeRwidthDefault := 36, eyeRheightDefault := 36,
    eyeRwidthCurrent := 1, eyeRheightCurrent := 1,
    eyeRwidthNext := 36, eyeRheightNext := 36, eyeRheightOffset := 0,
    eyeRborderRadiusDefault := 8, eyeRborderRadiusCurrent := 8, eyeRborderRadiusNext := 8,
    spaceBetweenDefault := 10, spaceBetweenCurrent := 10, spaceBetweenNext := 10,
    eyeLxDefault := lx, eyeLyDefault := ly,
    eyeLx := lx, eyeLy := ly, eyeLxNext := lx, eyeLyNext := ly,
    eyeRxDefault := rx, eyeRyDefault := ly,
    eyeRx := rx, eyeRy := ly, eyeRxNext := rx, eyeRyNext := ly,
    eyelidsHeightMax := 18,
    eyelidsTiredHeight := 0, eyelidsTiredHeightNext := 0,
    eyelidsAngryHeight := 0, eyelidsAngryHeightNext := 0,
    eyelidsHappyBottomOffsetMax := 21,
    eyelidsHappyBottomOffset := 0, eyelidsHappyBottomOffsetNext := 0,
    hFlicker := false, hFlickerAlternate := false, hFlickerAmplitude := 2,
    vFlicker := false, vFlickerAlternate := false, vFlickerAmplitude := 10,
    autoblinker := false, blinkInterval := 1, blinkIntervalVariation := 4, blinktimer := 0,
    idle := false, idleInterval := 1, idleIntervalVariation := 3, idleAnimationTimer := 0,
    confused := false, confusedAnimationTimer := 0, confusedAnimationDuration := 500,
    confusedToggle := true,
    laugh := false, laughAnimationTimer := 0, laughAnimationDuration := 500,
    laughToggle := true }

end AN

/-! ### Stage lemmas: disabled macro animations are identities -/

lemma autoblink_off (s : Eyes) (now : ℚ) (o : Oracle) (h : s.autoblinker = false) :
    autoblinkStep s now o = s := by
  simp [autoblinkStep, h]

lemma laugh_off (s : Eyes) (now : ℚ) (h : s.laugh = false) : laughStep s now = s := by
  simp [laughStep, h]

lemma confused_off (s : Eyes) (now : ℚ) (h : s.confused = false) : confusedStep s now = s := by
  simp [confusedStep, h]

lemma idle_off (s : Eyes) (now : ℚ) (o : Oracle) (h : s.idle = false) :
    idleStep s now o = s := by
  simp [idleStep, h]

lemma hflick_off (s : Eyes) (h : s.hFlicker = false) : hFlickStep s = s := by
  simp [hFlickStep, h]

lemma vflick_off (s : Eyes) (h : s.vFlicker = false) : vFlickStep s = s := by
  simp [vFlickStep, h]

lemma cyclops_off (s : Eyes) (h : s.cyclops = false) : cyclopsStep s = s := by
  simp [cyclopsStep, h]

/-! ### The curious stage only writes the two height offsets -/

lemma curious_eq_re (s : Eyes) :
    RE.curiousStep s =
      { s with eyeLheightOffset := (RE.curiousStep s).eyeLheightOffset,
               eyeRheightOffset := (RE.curiousStep s).eyeRheightOffset } := by
  simp only [RE.curiousStep]
  split_ifs <;> rfl

lemma curious_off_re (s : Eyes) (h : s.curious = false) :
    RE.curiousStep s = { s with eyeLheightOffset := 0, eyeRheightOffset := 0 } := by
  simp [RE.curiousStep, h]

lemma curious_eq_an (s : Eyes) :
    AN.curiousStep s =
      { s with eyeLheightOffset := (AN.curiousStep s).eyeLheightOffset,
               eyeRheightOffset := (AN.curiousStep s).eyeRheightOffset } := by
  simp only [AN.curiousStep]
  split_ifs <;> rfl

lemma curious_off_an (s : Eyes) (h : s.curious = false) :
    AN.curiousStep s = { s with eyeLheightOffset := 0, eyeRheightOffset := 0 } := by
  simp [AN.curiousStep, h]

/-! ### With all macro animations disabled, a tick is tween plus render -/

lemma advance_quiet_re (s : Eyes) (now : ℚ) (o : Oracle)
    (h1 : s.autoblinker = false) (h2 : s.laugh = false) (h3 : s.confused = false)
    (h4 : s.idle = false) (h5 : s.hFlicker = false) (h6 : s.vFlicker = false)
    (h7 : s.cyclops = false) :
    RE.advance s now o =
      (RE.renderState (RE.tweenStep (RE.curiousStep s)),
       RE.frameOf (RE.renderState (RE.tweenStep (RE.curiousStep s)))) := by
  have hc : (RE.tweenStep (RE.curiousStep s)).autoblinker = s.autoblinker ∧
      (RE.tweenStep (RE.curiousStep s)).laugh = s.laugh ∧
      (RE.tweenStep (RE.curiousStep s)).confused = s.confused ∧
      (RE.tweenStep (RE.curiousStep s)).idle = s.idle ∧
      (RE.tweenStep (RE.curiousStep s)).hFlicker = s.hFlicker ∧
      (RE.tweenStep (RE.curiousStep s)).vFlicker = s.vFlicker ∧
      (RE.tweenStep (RE.curiousStep s)).cyclops = s.cyclops := by
    rw [curious_eq_re s]
    exact ⟨rfl, rfl, rfl, rfl, rfl, rfl, rfl⟩
  obtain ⟨c1, c2, c3, c4, c5, c6, c7⟩ := hc
  have e1 := autoblink_off (RE.tweenStep (RE.curiousStep s)) now o (c1.trans h1)
  simp only [RE.advance, e1]
  rw [laugh_off _ _ (c2.trans h2), confused_off _ _ (c3.trans h3),
     idle_off _ _ _ (c4.trans h4), hflick_off _ (c5.trans h5),
     vflick_off _ (c6.trans h6), cyclops_off _ (c7.trans h7)]

lemma advance_quiet_an (s : Eyes) (now : ℚ) (o : Oracle)
    (h1 : s.autoblinker = false) (h2 : s.laugh = false) (h3 : s.confused = false)
    (h4 : s.idle = false) (h5 : s.hFlicker = false) (h6 : s.vFlicker = false)
    (h7 : s.cyclops = false) :
    AN.advance s now o =
      (AN.renderState (AN.tweenStep (AN.curiousStep s)),
       AN.frameOf (AN.renderState (AN.tweenStep (AN.curiousStep s)))) := by
  have hc : (AN.tweenStep (AN.curiousStep s)).autoblinker = s.autoblinker ∧
      (AN.tweenStep (AN.curiousStep s)).laugh = s.laugh ∧
      (AN.tweenStep (AN.curiousStep s)).confused = s.confused ∧
      (AN.tweenStep (AN.curiousStep s)).idle = s.idle ∧
      (AN.tweenStep (AN.curiousStep s)).hFlicker = s.hFlicker ∧
      (AN.tweenStep (AN.curiousStep s)).vFlicker = s.vFlicker ∧
      (AN.tweenStep (AN.curiousStep s)).cyclops = s.cyclops := by
    rw [curious_eq_an s]
    exact ⟨rfl, rfl, rfl, rfl, rfl, rfl, rfl⟩
  obtain ⟨c1, c2, c3, c4, c5, c6, c7⟩ := hc
  have e1 := autoblink_off (AN.tweenStep (AN.curiousStep s)) now o (c1.trans h1)
  simp only [AN.advance, e1]
  rw [laugh_off _ _ (c2.trans h2), confused_off _ _ (c3.trans h3),
     idle_off _ _ _ (c4.trans h4), hflick_off _ (c5.trans h5),
     vflick_off _ (c6.trans h6), cyclops_off _ (c7.trans h7)]

/-! ### A tick that cannot raise succeeds -/

lemma tick_ok_re (s : Eyes) (now : ℚ) (o : Oracle) (h : RE.tickFails s now = false) :
    RE.tick s now o = some (RE.advance s now o) := by
  simp [RE.tick, h]

lemma tick_ok_an (s : Eyes) (now : ℚ) (o : Oracle) (h : AN.tickFails s now = false) :
    AN.tick s now o = some (AN.advance s now o) := by
  simp [AN.tick, h]

/-! ### Field preservation through the macro stages -/

lemma ab_fields (s : Eyes) (now : ℚ) (o : Oracle) :
    (autoblinkStep s now o).cyclops = s.cyclops ∧
    (autoblinkStep s now o).confused = s.confused ∧
    (autoblinkStep s now o).confusedToggle = s.confusedToggle ∧
    (autoblinkStep s now o).confusedAnimationTimer = s.confusedAnimationTimer ∧
    (autoblinkStep s now o).confusedAnimationDuration = s.confusedAnimationDuration ∧
    (autoblinkStep s now o).hFlicker = s.hFlicker ∧
    (autoblinkStep s now o).hFlickerAmplitude = s.hFlickerAmplitude := by
  simp only [autoblinkStep]
  split_ifs <;> exact ⟨rfl, rfl, rfl, rfl, rfl, rfl, rfl⟩

lemma lg_fields (s : Eyes) (now : ℚ) :
    (laughStep s now).cyclops = s.cyclops ∧
    (laughStep s now).confused = s.confused ∧
    (laughStep s now).confusedToggle = s.confusedToggle ∧
    (laughStep s now).confusedAnimationTimer = s.confusedAnimationTimer ∧
    (laughStep s now).confusedAnimationDuration = s.confusedAnimationDuration ∧
    (laughStep s now).hFlicker = s.hFlicker ∧
    (laughStep s now).hFlickerAmplitude = s.hFlickerAmplitude := by
  simp only [laughStep]
  split_ifs <;> exact ⟨rfl, rfl, rfl, rfl, rfl, rfl, rfl⟩

lemma cf_cyclops (s : Eyes) (now : ℚ) : (confusedStep s now).cyclops = s.cyclops := by
  simp only [confusedStep]
  split_ifs <;> rfl

lemma idl_fields (s : Eyes) (now : ℚ) (o : Oracle) :
    (idleStep s now o).cyclops = s.cyclops ∧
    (idleStep s now o).confused = s.confused ∧
    (idleStep s now o).confusedToggle = s.confusedToggle ∧
    (idleStep s now o).confusedAnimationTimer = s.confusedAnimationTimer ∧
    (idleStep s now o).hFlicker = s.hFlicker ∧
    (idleStep s now o).hFlickerAmplitude = s.hFlickerAmplitude := by
  simp only [idleStep]
  split_ifs <;> exact ⟨rfl, rfl, rfl, rfl, rfl, rfl⟩

lemma hf_fields (s : Eyes) :
    (hFlickStep s).cyclops = s.cyclops ∧
    (hFlickStep s).confused = s.confused ∧
    (hFlickStep s).confusedToggle = s.confusedToggle ∧
    (hFlickStep s).confusedAnimationTimer = s.confusedAnimationTimer ∧
    (hFlickStep s).hFlicker = s.hFlicker ∧
    (hFlickStep s).hFlickerAmplitude = s.hFlickerAmplitude := by
  simp only [hFlickStep]
  split_ifs <;> exact ⟨rfl, rfl, rfl, rfl, rfl, rfl⟩

lemma vf_fields (s : Eyes) :
    (vFlickStep s).cyclops = s.cyclops ∧
    (vFlickStep s).confused = s.confused ∧
    (vFlickStep s).confusedToggle = s.confusedToggle ∧
    (vFlickStep s).confusedAnimationTimer = s.confusedAnimationTimer ∧
    (vFlickStep s).hFlicker = s.hFlicker ∧
    (vFlickStep s).hFlickerAmplitude = s.hFlickerAmplitude := by
  simp only [vFlickStep]
  split_ifs <;> exact ⟨rfl, rfl, rfl, rfl, rfl, rfl⟩

lemma cyc_fields (s : Eyes) :
    (cyclopsStep s).cyclops = s.cyclops ∧
    (cyclopsStep s).confused = s.confused ∧
    (cyclopsStep s).confusedToggle = s.confusedToggle ∧
    (cyclopsStep s).confusedAnimationTimer = s.confusedAnimationTimer ∧
    (cyclopsStep s).hFlicker = s.hFlicker ∧
    (cyclopsStep s).hFlickerAmplitude = s.hFlickerAmplitude := by
  simp only [cyclopsStep]
  split_ifs <;> exact ⟨rfl, rfl, rfl, rfl, rfl, rfl⟩

lemma cyclops_on (s : Eyes) (h : s.cyclops = true) :
    cyclopsStep s =
      { s with eyeRwidthCurrent := 0, eyeRheightCurrent := 0, spaceBetweenCurrent := 0 } := by
  simp [cyclopsStep, h]

lemma mood_fields (s : Eyes) :
    (AN.moodStep s).cyclops = s.cyclops ∧
    (AN.moodStep s).confused = s.confused ∧
    (AN.moodStep s).confusedToggle = s.confusedToggle ∧
    (AN.moodStep s).confusedAnimationTimer = s.confusedAnimationTimer ∧
    (AN.moodStep s).hFlicker = s.hFlicker ∧
    (AN.moodStep s).hFlickerAmplitude = s.hFlickerAmplitude ∧
    (AN.moodStep s).eyeRwidthCurrent = s.eyeRwidthCurrent ∧
    (AN.moodStep s).eyeRheightCurrent = s.eyeRheightCurrent ∧
    (AN.moodStep s).spaceBetweenCurrent = s.spaceBetweenCurrent := by
  simp only [AN.moodStep]
  split_ifs <;> exact ⟨rfl, rfl, rfl, rfl, rfl, rfl, rfl, rfl, rfl⟩

lemma frameOf_eyeR_none_re (t : Eyes) (h : t.cyclops = true) :
    (RE.frameOf t).eyeR = none := by
  simp [RE.frameOf, h]

lemma frameOf_eyeR_none_an (t : Eyes) (h : t.cyclops = true) :
    (AN.frameOf t).eyeR = none := by
  simp [AN.frameOf, h]

/-- A fixed oracle for concrete evaluations. -/
def oracle0 : Oracle := ⟨0, 0, 0, 0⟩

/-- C7 counterexample: with a 128x64 screen and the default 36x36 eyes,
radius 8, space 10, the initial geometry of both variants has
`eyeLx = 23` and `eyeRx = 69`, not the claimed `leftX = 21` and
`rightX = 67`. -/
theorem C7_counterexample :
    (RE.init 128 64).eyeLx = 23 ∧ (RE.init 128 64).eyeRx = 69 ∧
    (AN.init 128 64).eyeLx = 23 ∧ (AN.init 128 64).eyeRx = 69 ∧
    ¬((23 : ℚ) = 21) ∧ ¬((69 : ℚ) = 67) := by
  refine ⟨?_, ?_, ?_, ?_, by norm_num, by norm_num⟩ <;>
    · simp only [RE.init, AN.init, pyFDiv2]
      norm_num [Rat.floor_def']

/-- C7 amended: the initial derived geometry at 128x64 with the default
sizes is `leftX = 23`, `leftY = 14`, `rightX = 69`, `rightY = 14`,
following the centering formulas
`leftX = (screenWidth - (leftWidth + space + rightWidth)) // 2`,
`leftY = (screenHeight - leftHeight) // 2`,
`rightX = leftX + leftWidth + space`, `rightY = leftY`,
in both variants. -/
theorem C7_initial_geometry :
    (RE.init 128 64).eyeLx = pyFDiv2 (128 - (36 + 10 + 36)) ∧
    (RE.init 128 64).eyeLy = pyFDiv2 (64 - 36) ∧
    (RE.init 128 64).eyeRx = (RE.init 128 64).eyeLx + 36 + 10 ∧
    (RE.init 128 64).eyeRy = (RE.init 128 64).eyeLy ∧
    (RE.init 128 64).eyeLx = 23 ∧ (RE.init 128 64).eyeLy = 14 ∧
    (RE.init 128 64).eyeRx = 69 ∧ (RE.init 128 64).eyeRy = 14 ∧
    (AN.init 128 64).eyeLx = 23 ∧ (AN.init 128 64).eyeLy = 14 ∧
    (AN.init 128 64).eyeRx = 69 ∧ (AN.init 128 64).eyeRy = 14 := by
  refine ⟨rfl, rfl, rfl, rfl, ?_, ?_, ?_, ?_, ?_, ?_, ?_, ?_⟩ <;>
    · simp only [RE.init, AN.init, pyFDiv2]
      norm_num [Rat.floor_def']

/-- C6: `setFramerate` divides by fps with no validation in both variants:
fps = 0 raises `ZeroDivisionError` (a division fault, modelled `none`)
instead of an invalid-configuration error, and a negative fps is accepted,
leaving a negative (invalid) frame interval. -/
theorem C6_setFramerate_fault (s : Eyes) :
    RE.setFramerate s 0 = none ∧
    AN.setFramerate s 0 = none ∧
    RE.setFramerate s (-30) = some { s with frameInterval := -34 } ∧
    AN.setFramerate s (-40) = some { s with frameInterval := -25 } ∧
    (-34 : ℚ) < 0 := by
  have h30 : Int.fdiv 1000 (-30) = -34 := by decide
  refine ⟨by simp [RE.setFramerate], by simp [AN.setFramerate], ?_, ?_, by norm_num⟩
  · simp [RE.setFramerate, h30]
  · simp only [AN.setFramerate]
    norm_num

/-- C8: `setMood` in both variants sets exactly the flag selected by the
mood argument (1 = tired, 2 = angry, 3 = happy) and clears the others;
any other argument (such as 0 = default) clears all three, so the three
flags are pairwise mutually exclusive after every call. -/
theorem C8_setMood_exclusive (s : Eyes) (m : ℤ) :
    (RE.setMood s m).tired = (m == 1) ∧
    (RE.setMood s m).angry = (m == 2) ∧
    (RE.setMood s m).happy = (m == 3) ∧
    (AN.setMood s m).tired = (m == 1) ∧
    (AN.setMood s m).angry = (m == 2) ∧
    (AN.setMood s m).happy = (m == 3) ∧
    ((RE.setMood s m).tired && (RE.setMood s m).angry) = false ∧
    ((RE.setMood s m).tired && (RE.setMood s m).happy) = false ∧
    ((RE.setMood s m).angry && (RE.setMood s m).happy) = false ∧
    ((AN.setMood s m).tired && (AN.setMood s m).angry) = false ∧
    ((AN.setMood s m).tired && (AN.setMood s m).happy) = false ∧
    ((AN.setMood s m).angry && (AN.setMood s m).happy) = false := by
  simp only [RE.setMood, AN.setMood]
  split_ifs with h1 h2 h3 <;> simp_all [beq_iff_eq]

/-- C4: any tick executed with cyclops mode enabled leaves
`eyeRwidthCurrent = eyeRheightCurrent = spaceBetweenCurrent = 0` in the
post-tick state, regardless of all prior values, and omits the right eye
rectangle from the rendered frame — in both variants. -/
theorem C4_cyclops_zeroes (s : Eyes) (now : ℚ) (o : Oracle) (h : s.cyclops = true) :
    (RE.advance s now o).1.eyeRwidthCurrent = 0 ∧
    (RE.advance s now o).1.eyeRheightCurrent = 0 ∧
    (RE.advance s now o).1.spaceBetweenCurrent = 0 ∧
    (RE.advance s now o).2.eyeR = none ∧
    (AN.advance s now o).1.eyeRwidthCurrent = 0 ∧
    (AN.advance s now o).1.eyeRheightCurrent = 0 ∧
    (AN.advance s now o).1.spaceBetweenCurrent = 0 ∧
    (AN.advance s now o).2.eyeR = none := by
  have baseRE : (RE.tweenStep (RE.curiousStep s)).cyclops = true := by
    rw [curious_eq_re s]; exact h
  have baseAN : (AN.tweenStep (AN.curiousStep s)).cyclops = true := by
    rw [curious_eq_an s]; exact h
  have hRE :
      (vFlickStep (hFlickStep (idleStep (confusedStep (laughStep
        (autoblinkStep (RE.tweenStep (RE.curiousStep s)) now o) now) now) now o))).cyclops
        = true :=
    (vf_fields _).1.trans ((hf_fields _).1.trans ((idl_fields _ _ _).1.trans
      ((cf_cyclops _ _).trans ((lg_fields _ _).1.trans
        ((ab_fields _ _ _).1.trans baseRE)))))
  have hAN :
      (vFlickStep (hFlickStep (idleStep (confusedStep (laughStep
        (autoblinkStep (AN.tweenStep (AN.curiousStep s)) now o) now) now) now o))).cyclops
        = true :=
    (vf_fields _).1.trans ((hf_fields _).1.trans ((idl_fields _ _ _).1.trans
      ((cf_cyclops _ _).trans ((lg_fields _ _).1.trans
        ((ab_fields _ _ _).1.trans baseAN)))))
  simp only [RE.advance, AN.advance]
  refine ⟨?_, ?_, ?_, ?_, ?_, ?_, ?_, ?_⟩
  · rw [cyclops_on _ hRE]; rfl
  · rw [cyclops_on _ hRE]; rfl
  · rw [cyclops_on _ hRE]; rfl
  · exact frameOf_eyeR_none_re _ ((cyc_fields _).1.trans hRE)
  · refine ((mood_fields _).2.2.2.2.2.2.1).trans ?_
    rw [cyclops_on _ hAN]
  · refine ((mood_fields _).2.2.2.2.2.2.2.1).trans ?_
    rw [cyclops_on _ hAN]
  · refine ((mood_fields _).2.2.2.2.2.2.2.2).trans ?_
    rw [cyclops_on _ hAN]
  · exact frameOf_eyeR_none_an _ ((mood_fields _).1.trans ((cyc_fields _).1.trans hAN))

/-- C4 witness: the cyclops invariant at a concrete cyclops state. -/
theorem C4_cyclops_zeroes_witness :
    (RE.advance { RE.init 128 64 with cyclops := true } 0 oracle0).1.eyeRwidthCurrent = 0 ∧
    (RE.advance { RE.init 128 64 with cyclops := true } 0 oracle0).1.eyeRheightCurrent = 0 ∧
    (RE.advance { RE.init 128 64 with cyclops := true } 0 oracle0).1.spaceBetweenCurrent = 0 ∧
    (RE.advance { RE.init 128 64 with cyclops := true } 0 oracle0).2.eyeR = none ∧
    (AN.advance { RE.init 128 64 with cyclops := true } 0 oracle0).2.eyeR = none := by
  have h := C4_cyclops_zeroes { RE.init 128 64 with cyclops := true } 0 oracle0 rfl
  exact ⟨h.1, h.2.1, h.2.2.1, h.2.2.2.1, h.2.2.2.2.2.2.2⟩

lemma mid_fields_re (s : Eyes) :
    (RE.tweenStep (RE.curiousStep s)).idle = s.idle ∧
    (RE.tweenStep (RE.curiousStep s)).idleAnimationTimer = s.idleAnimationTimer ∧
    (RE.tweenStep (RE.curiousStep s)).autoblinker = s.autoblinker ∧
    (RE.tweenStep (RE.curiousStep s)).blinktimer = s.blinktimer ∧
    (RE.tweenStep (RE.curiousStep s)).blinkIntervalVariation = s.blinkIntervalVariation ∧
    (RE.tweenStep (RE.curiousStep s)).idleIntervalVariation = s.idleIntervalVariation ∧
    (RE.tweenStep (RE.curiousStep s)).screenWidth = s.screenWidth ∧
    (RE.tweenStep (RE.curiousStep s)).screenHeight = s.screenHeight ∧
    (RE.tweenStep (RE.curiousStep s)).eyeLheightDefault = s.eyeLheightDefault ∧
    (RE.tweenStep (RE.curiousStep s)).eyeLwidthCurrent
      = (s.eyeLwidthCurrent + s.eyeLwidthNext) / 2 ∧
    (RE.tweenStep (RE.curiousStep s)).eyeRwidthCurrent
      = (s.eyeRwidthCurrent + s.eyeRwidthNext) / 2 ∧
    (RE.tweenStep (RE.curiousStep s)).spaceBetweenCurrent
      = (s.spaceBetweenCurrent + s.spaceBetweenNext) / 2 := by
  rw [curious_eq_re s]
  exact ⟨rfl, rfl, rfl, rfl, rfl, rfl, rfl, rfl, rfl, rfl, rfl, rfl⟩

lemma mid_fields_an (s : Eyes) :
    (AN.tweenStep (AN.curiousStep s)).idle = s.idle ∧
    (AN.tweenStep (AN.curiousStep s)).idleAnimationTimer = s.idleAnimationTimer ∧
    (AN.tweenStep (AN.curiousStep s)).autoblinker = s.autoblinker ∧
    (AN.tweenStep (AN.curiousStep s)).blinktimer = s.blinktimer ∧
    (AN.tweenStep (AN.curiousStep s)).blinkIntervalVariation = s.blinkIntervalVariation ∧
    (AN.tweenStep (AN.curiousStep s)).idleIntervalVariation = s.idleIntervalVariation ∧
    (AN.tweenStep (AN.curiousStep s)).screenWidth = s.screenWidth ∧
    (AN.tweenStep (AN.curiousStep s)).screenHeight = s.screenHeight ∧
    (AN.tweenStep (AN.curiousStep s)).eyeLheightDefault = s.eyeLheightDefault ∧
    (AN.tweenStep (AN.curiousStep s)).eyeLwidthCurrent
      = (s.eyeLwidthCurrent + s.eyeLwidthNext) / 2 ∧
    (AN.tweenStep (AN.curiousStep s)).eyeRwidthCurrent
      = (s.eyeRwidthCurrent + s.eyeRwidthNext) / 2 ∧
    (AN.tweenStep (AN.curiousStep s)).spaceBetweenCurrent
      = (s.spaceBetweenCurrent + s.spaceBetweenNext) / 2 := by
  rw [curious_eq_an s]
  exact ⟨rfl, rfl, rfl, rfl, rfl, rfl, rfl, rfl, rfl, rfl, rfl, rfl⟩

/-- C10: a due idle trigger makes the tick raise (return `none`) whenever
the tweened eye widths plus space exceed the screen width (negative X
bound handed to `random.randint`), whenever the Y constraint is negative,
and also whenever the X bound is a non-integral float (as it is during
any width or space transition) — instead of clamping, in both variants.
The tick pipeline is total when the constraints and the interval jitters
are nonnegative whole numbers. -/
theorem C10_idle_constraint :
    (∀ (s : Eyes) (now : ℚ) (o : Oracle),
      s.idle = true → s.idleAnimationTimer ≤ now →
      s.screenWidth < (s.eyeLwidthCurrent + s.eyeLwidthNext) / 2
        + (s.spaceBetweenCurrent + s.spaceBetweenNext) / 2
        + (s.eyeRwidthCurrent + s.eyeRwidthNext) / 2 →
      RE.tick s now o = none ∧ AN.tick s now o = none) ∧
    (∀ (s : Eyes) (now : ℚ) (o : Oracle),
      s.idle = true → s.idleAnimationTimer ≤ now →
      s.screenHeight < s.eyeLheightDefault →
      RE.tick s now o = none ∧ AN.tick s now o = none) ∧
    (∀ (s : Eyes) (now : ℚ) (o : Oracle),
      s.idle = true → s.idleAnimationTimer ≤ now →
      isWholeQ (s.screenWidth - (s.eyeLwidthCurrent + s.eyeLwidthNext) / 2
        - (s.spaceBetweenCurrent + s.spaceBetweenNext) / 2
        - (s.eyeRwidthCurrent + s.eyeRwidthNext) / 2) = false →
      RE.tick s now o = none ∧ AN.tick s now o = none) ∧
    (∀ (s : Eyes) (now : ℚ) (o : Oracle),
      0 ≤ s.blinkIntervalVariation → isWholeQ s.blinkIntervalVariation = true →
      0 ≤ s.idleIntervalVariation → isWholeQ s.idleIntervalVariation = true →
      (s.eyeLwidthCurrent + s.eyeLwidthNext) / 2
        + (s.spaceBetweenCurrent + s.spaceBetweenNext) / 2
        + (s.eyeRwidthCurrent + s.eyeRwidthNext) / 2 ≤ s.screenWidth →
      isWholeQ (s.screenWidth - (s.eyeLwidthCurrent + s.eyeLwidthNext) / 2
        - (s.spaceBetweenCurrent + s.spaceBetweenNext) / 2
        - (s.eyeRwidthCurrent + s.eyeRwidthNext) / 2) = true →
      s.eyeLheightDefault ≤ s.screenHeight →
      isWholeQ (s.screenHeight - s.eyeLheightDefault) = true →
      RE.tick s now o = some (RE.advance s now o) ∧
      AN.tick s now o = some (AN.advance s now o)) := by
  refine ⟨?_, ?_, ?_, ?_⟩
  · intro s now o hidle hdue hX
    obtain ⟨m1, m2, m3, m4, m5, m6, m7, m8, m9, m10, m11, m12⟩ := mid_fields_re s
    obtain ⟨n1, n2, n3, n4, n5, n6, n7, n8, n9, n10, n11, n12⟩ := mid_fields_an s
    have dDue : decide (s.idleAnimationTimer ≤ now) = true := decide_eq_true hdue
    have dX : decide (s.screenWidth - (s.eyeLwidthCurrent + s.eyeLwidthNext) / 2
        - (s.spaceBetweenCurrent + s.spaceBetweenNext) / 2
        - (s.eyeRwidthCurrent + s.eyeRwidthNext) / 2 < 0) = true :=
      decide_eq_true (by linarith)
    constructor
    · have hfail : RE.tickFails s now = true := by
        simp only [RE.tickFails, getScreenConstraint_X, getScreenConstraint_Y,
          m1, m2, m3, m4, m5, m6, m7, m8, m9, m10, m11, m12, hidle, dDue, dX]
        simp
      simp [RE.tick, hfail]
    · have hfail : AN.tickFails s now = true := by
        simp only [AN.tickFails, getScreenConstraint_X, getScreenConstraint_Y,
          n1, n2, n3, n4, n5, n6, n7, n8, n9, n10, n11, n12, hidle, dDue, dX]
        simp
      simp [AN.tick, hfail]
  · intro s now o hidle hdue hY
    obtain ⟨m1, m2, m3, m4, m5, m6, m7, m8, m9, m10, m11, m12⟩ := mid_fields_re s
    obtain ⟨n1, n2, n3, n4, n5, n6, n7, n8, n9, n10, n11, n12⟩ := mid_fields_an s
    have dDue : decide (s.idleAnimationTimer ≤ now) = true := decide_eq_true hdue
    have dY : decide (s.screenHeight - s.eyeLheightDefault < 0) = true :=
      decide_eq_true (by linarith)
    constructor
    · have hfail : RE.tickFails s now = true := by
        simp only [RE.tickFails, getScreenConstraint_X, getScreenConstraint_Y,
          m1, m2, m3, m4, m5, m6, m7, m8, m9, m10, m11, m12, hidle, dDue, dY]
        simp
      simp [RE.tick, hfail]
    · have hfail : AN.tickFails s now = true := by
        simp only [AN.tickFails, getScreenConstraint_X, getScreenConstraint_Y,
          n1, n2, n3, n4, n5, n6, n7, n8, n9, n10, n11, n12, hidle, dDue, dY]
        simp
      simp [AN.tick, hfail]
  · intro s now o hidle hdue hIX
    obtain ⟨m1, m2, m3, m4, m5, m6, m7, m8, m9, m10, m11, m12⟩ := mid_fields_re s
    obtain ⟨n1, n2, n3, n4, n5, n6, n7, n8, n9, n10, n11, n12⟩ := mid_fields_an s
    have dDue : decide (s.idleAnimationTimer ≤ now) = true := decide_eq_true hdue
    constructor
    · have hfail : RE.tickFails s now = true := by
        simp only [RE.tickFails, getScreenConstraint_X, getScreenConstraint_Y,
          m1, m2, m3, m4, m5, m6, m7, m8, m9, m10, m11, m12, hidle, dDue, hIX]
        simp
      simp [RE.tick, hfail]
    · have hfail : AN.tickFails s now = true := by
        simp only [AN.tickFails, getScreenConstraint_X, getScreenConstraint_Y,
          n1, n2, n3, n4, n5, n6, n7, n8, n9, n10, n11, n12, hidle, dDue, hIX]
        simp
      simp [AN.tick, hfail]
  · intro s now o hbv hWB hiv hWI hX hWX hY hWY
    obtain ⟨m1, m2, m3, m4, m5, m6, m7, m8, m9, m10, m11, m12⟩ := mid_fields_re s
    obtain ⟨n1, n2, n3, n4, n5, n6, n7, n8, n9, n10, n11, n12⟩ := mid_fields_an s
    have dB : decide (s.blinkIntervalVariation < 0) = false :=
      decide_eq_false (not_lt.mpr hbv)
    have dI : decide (s.idleIntervalVariation < 0) = false :=
      decide_eq_false (not_lt.mpr hiv)
    have dX2 : decide (s.screenWidth - (s.eyeLwidthCurrent + s.eyeLwidthNext) / 2
        - (s.spaceBetweenCurrent + s.spaceBetweenNext) / 2
        - (s.eyeRwidthCurrent + s.eyeRwidthNext) / 2 < 0) = false :=
      decide_eq_false (not_lt.mpr (by linarith))
    have dY2 : decide (s.screenHeight - s.eyeLheightDefault < 0) = false :=
      decide_eq_false (not_lt.mpr (by linarith))
    constructor
    · refine tick_ok_re s now o ?_
      simp only [RE.tickFails, getScreenConstraint_X, getScreenConstraint_Y,
        m1, m2, m3, m4, m5, m6, m7, m8, m9, m10, m11, m12,
        dB, dI, dX2, dY2, hWB, hWI, hWX, hWY]
      simp
    · refine tick_ok_an s now o ?_
      simp only [AN.tickFails, getScreenConstraint_X, getScreenConstraint_Y,
        n1, n2, n3, n4, n5, n6, n7, n8, n9, n10, n11, n12,
        dB, dI, dX2, dY2, hWB, hWI, hWX, hWY]
      simp

/-- A 128x64 idle state caught mid-transition: the left width is tweening
from 36 toward 21, so the idle X bound is the non-integral float 53.5. -/
def halfTweened : Eyes :=
  { RE.init 128 64 with idle := true, eyeLwidthNext := 21 }

/-- C10 witness: the tick raises on a 20-pixel-wide screen with idle due,
on a 20-pixel-tall screen, and on a non-integral X bound mid-transition;
it succeeds on the settled default 128x64 configuration. -/
theorem C10_idle_constraint_witness :
    (RE.tick { RE.init 20 64 with idle := true } 0 oracle0 = none ∧
     AN.tick { RE.init 20 64 with idle := true } 0 oracle0 = none) ∧
    RE.tick { RE.init 128 20 with idle := true } 0 oracle0 = none ∧
    (RE.tick halfTweened 0 oracle0 = none ∧
     AN.tick halfTweened 0 oracle0 = none) ∧
    (RE.tick (RE.init 128 64) 0 oracle0 = some (RE.advance (RE.init 128 64) 0 oracle0) ∧
     AN.tick (AN.init 128 64) 0 oracle0 = some (AN.advance (AN.init 128 64) 0 oracle0)) :=
  ⟨C10_idle_constraint.1 { RE.init 20 64 with idle := true } 0 oracle0 rfl (by decide)
      (by simp only [RE.init]; norm_num),
   (C10_idle_constraint.2.1 { RE.init 128 20 with idle := true } 0 oracle0 rfl (by decide)
      (by decide)).1,
   C10_idle_constraint.2.2.1 halfTweened 0 oracle0 rfl (by decide)
      (by simp only [halfTweened, RE.init, isWholeQ, decide_eq_false_iff_not]
          norm_num [Rat.floor_def']),
   ⟨(C10_idle_constraint.2.2.2 (RE.init 128 64) 0 oracle0 (by decide) (by decide)
      (by decide) (by decide) (by simp only [RE.init]; norm_num)
      (by simp only [RE.init, isWholeQ, decide_eq_true_eq]; norm_num [Rat.floor_def'])
      (by decide)
      (by simp only [RE.init, isWholeQ, decide_eq_true_eq]
          norm_num [Rat.floor_def'])).1,
    (C10_idle_constraint.2.2.2 (AN.init 128 64) 0 oracle0 (by decide) (by decide)
      (by decide) (by decide) (by simp only [AN.init]; norm_num)
      (by simp only [AN.init, isWholeQ, decide_eq_true_eq]; norm_num [Rat.floor_def'])
      (by decide)
      (by simp only [AN.init, isWholeQ, decide_eq_true_eq]
          norm_num [Rat.floor_def'])).2⟩⟩

lemma mid_confused_re (s : Eyes) :
    (RE.tweenStep (RE.curiousStep s)).confused = s.confused ∧
    (RE.tweenStep (RE.curiousStep s)).confusedToggle = s.confusedToggle ∧
    (RE.tweenStep (RE.curiousStep s)).confusedAnimationTimer = s.confusedAnimationTimer ∧
    (RE.tweenStep (RE.curiousStep s)).confusedAnimationDuration
      = s.confusedAnimationDuration ∧
    (RE.tweenStep (RE.curiousStep s)).hFlicker = s.hFlicker := by
  rw [curious_eq_re s]
  exact ⟨rfl, rfl, rfl, rfl, rfl⟩

lemma mid_confused_an (s : Eyes) :
    (AN.tweenStep (AN.curiousStep s)).confused = s.confused ∧
    (AN.tweenStep (AN.curiousStep s)).confusedToggle = s.confusedToggle ∧
    (AN.tweenStep (AN.curiousStep s)).confusedAnimationTimer = s.confusedAnimationTimer ∧
    (AN.tweenStep (AN.curiousStep s)).confusedAnimationDuration
      = s.confusedAnimationDuration ∧
    (AN.tweenStep (AN.curiousStep s)).hFlicker = s.hFlicker := by
  rw [curious_eq_an s]
  exact ⟨rfl, rfl, rfl, rfl, rfl⟩

/-- The state reaching the confusion block of roboeyes.py `drawEyes`:
tween plus the autoblinker and laughter blocks. -/
def RE.preMacro (s : Eyes) (now : ℚ) (o : Oracle) : Eyes :=
  laughStep (autoblinkStep (RE.tweenStep (RE.curiousStep s)) now o) now

/-- The state reaching the confusion block of anim.py `drawEyes`. -/
def AN.preMacro (s : Eyes) (now : ℚ) (o : Oracle) : Eyes :=
  laughStep (autoblinkStep (AN.tweenStep (AN.curiousStep s)) now o) now

lemma pre_confused_re (s : Eyes) (now : ℚ) (o : Oracle) :
    (RE.preMacro s now o).confused = s.confused ∧
    (RE.preMacro s now o).confusedToggle = s.confusedToggle ∧
    (RE.preMacro s now o).confusedAnimationTimer = s.confusedAnimationTimer ∧
    (RE.preMacro s now o).confusedAnimationDuration = s.confusedAnimationDuration ∧
    (RE.preMacro s now o).hFlicker = s.hFlicker := by
  obtain ⟨m1, m2, m3, m4, m5⟩ := mid_confused_re s
  exact ⟨(lg_fields _ _).2.1.trans ((ab_fields _ _ _).2.1.trans m1),
    (lg_fields _ _).2.2.1.trans ((ab_fields _ _ _).2.2.1.trans m2),
    (lg_fields _ _).2.2.2.1.trans ((ab_fields _ _ _).2.2.2.1.trans m3),
    (lg_fields _ _).2.2.2.2.1.trans ((ab_fields _ _ _).2.2.2.2.1.trans m4),
    (lg_fields _ _).2.2.2.2.2.1.trans ((ab_fields _ _ _).2.2.2.2.2.1.trans m5)⟩

lemma pre_confused_an (s : Eyes) (now : ℚ) (o : Oracle) :
    (AN.preMacro s now o).confused = s.confused ∧
    (AN.preMacro s now o).confusedToggle = s.confusedToggle ∧
    (AN.preMacro s now o).confusedAnimationTimer = s.confusedAnimationTimer ∧
    (AN.preMacro s now o).confusedAnimationDuration = s.confusedAnimationDuration ∧
    (AN.preMacro s now o).hFlicker = s.hFlicker := by
  obtain ⟨m1, m2, m3, m4, m5⟩ := mid_confused_an s
  exact ⟨(lg_fields _ _).2.1.trans ((ab_fields _ _ _).2.1.trans m1),
    (lg_fields _ _).2.2.1.trans ((ab_fields _ _ _).2.2.1.trans m2),
    (lg_fields _ _).2.2.2.1.trans ((ab_fields _ _ _).2.2.2.1.trans m3),
    (lg_fields _ _).2.2.2.2.1.trans ((ab_fields _ _ _).2.2.2.2.1.trans m4),
    (lg_fields _ _).2.2.2.2.2.1.trans ((ab_fields _ _ _).2.2.2.2.2.1.trans m5)⟩

lemma adv_confused_proj_re (s : Eyes) (now : ℚ) (o : Oracle) :
    (RE.advance s now o).1.confused = (confusedStep (RE.preMacro s now o) now).confused ∧
    (RE.advance s now o).1.confusedToggle
      = (confusedStep (RE.preMacro s now o) now).confusedToggle ∧
    (RE.advance s now o).1.confusedAnimationTimer
      = (confusedStep (RE.preMacro s now o) now).confusedAnimationTimer ∧
    (RE.advance s now o).1.hFlicker = (confusedStep (RE.preMacro s now o) now).hFlicker ∧
    (RE.advance s now o).1.hFlickerAmplitude
      = (confusedStep (RE.preMacro s now o) now).hFlickerAmplitude :=
  ⟨(cyc_fields _).2.1.trans ((vf_fields _).2.1.trans ((hf_fields _).2.1.trans
      (idl_fields _ _ _).2.1)),
   (cyc_fields _).2.2.1.trans ((vf_fields _).2.2.1.trans ((hf_fields _).2.2.1.trans
      (idl_fields _ _ _).2.2.1)),
   (cyc_fields _).2.2.2.1.trans ((vf_fields _).2.2.2.1.trans ((hf_fields _).2.2.2.1.trans
      (idl_fields _ _ _).2.2.2.1)),
   (cyc_fields _).2.2.2.2.1.trans ((vf_fields _).2.2.2.2.1.trans
      ((hf_fields _).2.2.2.2.1.trans (idl_fields _ _ _).2.2.2.2.1)),
   (cyc_fields _).2.2.2.2.2.trans ((vf_fields _).2.2.2.2.2.trans
      ((hf_fields _).2.2.2.2.2.trans (idl_fields _ _ _).2.2.2.2.2))⟩

lemma adv_confused_proj_an (s : Eyes) (now : ℚ) (o : Oracle) :
    (AN.advance s now o).1.confused = (confusedStep (AN.preMacro s now o) now).confused ∧
    (AN.advance s now o).1.confusedToggle
      = (confusedStep (AN.preMacro s now o) now).confusedToggle ∧
    (AN.advance s now o).1.confusedAnimationTimer
      = (confusedStep (AN.preMacro s now o) now).confusedAnimationTimer ∧
    (AN.advance s now o).1.hFlicker = (confusedStep (AN.preMacro s now o) now).hFlicker ∧
    (AN.advance s now o).1.hFlickerAmplitude
      = (confusedStep (AN.preMacro s now o) now).hFlickerAmplitude :=
  ⟨(mood_fields _).2.1.trans ((cyc_fields _).2.1.trans ((vf_fields _).2.1.trans
      ((hf_fields _).2.1.trans (idl_fields _ _ _).2.1))),
   (mood_fields _).2.2.1.trans ((cyc_fields _).2.2.1.trans ((vf_fields _).2.2.1.trans
      ((hf_fields _).2.2.1.trans (idl_fields _ _ _).2.2.1))),
   (mood_fields _).2.2.2.1.trans ((cyc_fields _).2.2.2.1.trans
      ((vf_fields _).2.2.2.1.trans ((hf_fields _).2.2.2.1.trans
        (idl_fields _ _ _).2.2.2.1))),
   (mood_fields _).2.2.2.2.1.trans ((cyc_fields _).2.2.2.2.1.trans
      ((vf_fields _).2.2.2.2.1.trans ((hf_fields _).2.2.2.2.1.trans
        (idl_fields _ _ _).2.2.2.2.1))),
   (mood_fields _).2.2.2.2.2.1.trans ((cyc_fields _).2.2.2.2.2.trans
      ((vf_fields _).2.2.2.2.2.trans ((hf_fields _).2.2.2.2.2.trans
        (idl_fields _ _ _).2.2.2.2.2)))⟩

/-- Activation branch of the confusion block, for a state whose confusion
flags at the block are those of `s`. -/
lemma confusedStep_activate (t : Eyes) (now : ℚ) (hc : t.confused = true)
    (ht : t.confusedToggle = true) :
    confusedStep t now =
      { t with hFlicker := true, hFlickerAmplitude := 20,
               confusedAnimationTimer := now, confusedToggle := false } := by
  simp [confusedStep, hc, ht]

/-- Expiry branch of the confusion block. -/
lemma confusedStep_expire (t : Eyes) (now : ℚ) (hc : t.confused = true)
    (ht : t.confusedToggle = false)
    (hd : t.confusedAnimationTimer + t.confusedAnimationDuration ≤ now) :
    confusedStep t now =
      { t with hFlicker := false, hFlickerAmplitude := 0,
               confusedToggle := true, confused := false } := by
  simp [confusedStep, hc, ht, hd]

/-- Waiting branch of the confusion block. -/
lemma confusedStep_wait (t : Eyes) (now : ℚ) (hc : t.confused = true)
    (ht : t.confusedToggle = false)
    (hd : now < t.confusedAnimationTimer + t.confusedAnimationDuration) :
    confusedStep t now = t := by
  simp [confusedStep, hc, ht, not_le.mpr hd]

/-- The anim.py state used to exhibit the confusion re-trigger behavior:
a confusion animation already running (activated at time 0, toggle
consumed, horizontal flicker on at the confusion amplitude). -/
def confusedActive : Eyes :=
  { AN.init 128 64 with
      confused := true, confusedToggle := false,
      confusedAnimationTimer := 0, hFlicker := true, hFlickerAmplitude := 20 }

/-- C5 counterexample: in anim.py, `anim_confused` does not reset the
toggle, so re-triggering confusion mid-animation (animation started at 0,
re-triggered at 400) does NOT restart the window: the tick at 600, inside
the would-be restarted window [400, 900), already disables the flicker
and clears the confused flag. -/
theorem C5_counterexample :
    (AN.anim_confused confusedActive).confused = true ∧
    (AN.anim_confused confusedActive).confusedToggle = false ∧
    (AN.anim_confused confusedActive).confusedAnimationTimer = 0 ∧
    (AN.advance (AN.anim_confused confusedActive) 600 oracle0).1.confused = false ∧
    (AN.advance (AN.anim_confused confusedActive) 600 oracle0).1.hFlicker = false ∧
    ((600 : ℚ) < 400 + 500) := by
  obtain ⟨p1, p2, p3, p4, p5⟩ :=
    adv_confused_proj_an (AN.anim_confused confusedActive) 600 oracle0
  obtain ⟨m1, m2, m3, m4, m5⟩ := pre_confused_an (AN.anim_confused confusedActive) 600 oracle0
  have hcs := confusedStep_expire (AN.preMacro (AN.anim_confused confusedActive) 600 oracle0)
    600 (m1.trans rfl) (m2.trans rfl)
    (by rw [m3, m4]; norm_num [AN.anim_confused, confusedActive, AN.init])
  refine ⟨rfl, rfl, rfl, ?_, ?_, by norm_num⟩
  · rw [p1, hcs]
  · rw [p4, hcs]

/-- C5 amended: the confusion one-shot.  On a tick with the active flag
and toggle set, the horizontal flicker is enabled at amplitude 20, the
start time is recorded and the toggle flipped; on a tick past
`start + duration` with the toggle consumed, the flicker is disabled, the
toggle flipped back and the flag cleared; before that the animation keeps
running untouched.  Re-triggering restarts the window from the next tick
in roboeyes.py, whose `anim_confused` resets the toggle; in anim.py the
trigger leaves the toggle unchanged, so re-triggering mid-run does not
restart the window (the counterexample exhibits this). -/
theorem C5_confusion_oneshot :
    (∀ (s : Eyes) (now : ℚ) (o : Oracle),
      s.confused = true → s.confusedToggle = true →
      (RE.advance s now o).1.hFlicker = true ∧
      (RE.advance s now o).1.hFlickerAmplitude = 20 ∧
      (RE.advance s now o).1.confusedAnimationTimer = now ∧
      (RE.advance s now o).1.confusedToggle = false ∧
      (RE.advance s now o).1.confused = true) ∧
    (∀ (s : Eyes) (now : ℚ) (o : Oracle),
      s.confused = true → s.confusedToggle = false →
      s.confusedAnimationTimer + s.confusedAnimationDuration ≤ now →
      (RE.advance s now o).1.hFlicker = false ∧
      (RE.advance s now o).1.hFlickerAmplitude = 0 ∧
      (RE.advance s now o).1.confusedToggle = true ∧
      (RE.advance s now o).1.confused = false) ∧
    (∀ (s : Eyes) (now : ℚ) (o : Oracle),
      s.confused = true → s.confusedToggle = false →
      now < s.confusedAnimationTimer + s.confusedAnimationDuration →
      (RE.advance s now o).1.confused = true ∧
      (RE.advance s now o).1.confusedToggle = false ∧
      (RE.advance s now o).1.confusedAnimationTimer = s.confusedAnimationTimer ∧
      (RE.advance s now o).1.hFlicker = s.hFlicker) ∧
    (∀ s : Eyes, (RE.anim_confused s).confused = true ∧
      (RE.anim_confused s).confusedToggle = true) ∧
    (∀ s : Eyes, (AN.anim_confused s).confused = true ∧
      (AN.anim_confused s).confusedToggle = s.confusedToggle) ∧
    (∀ (s : Eyes) (now : ℚ) (o : Oracle),
      s.confused = true → s.confusedToggle = false →
      s.confusedAnimationTimer + s.confusedAnimationDuration ≤ now →
      (AN.advance s now o).1.hFlicker = false ∧
      (AN.advance s now o).1.confusedToggle = true ∧
      (AN.advance s now o).1.confused = false) := by
  refine ⟨?_, ?_, ?_, fun s => ⟨rfl, rfl⟩, fun s => ⟨rfl, rfl⟩, ?_⟩
  · intro s now o hc ht
    obtain ⟨p1, p2, p3, p4, p5⟩ := adv_confused_proj_re s now o
    obtain ⟨m1, m2, m3, m4, m5⟩ := pre_confused_re s now o
    have e := confusedStep_activate (RE.preMacro s now o) now (m1.trans hc) (m2.trans ht)
    exact ⟨p4.trans (by rw [e]), p5.trans (by rw [e]), p3.trans (by rw [e]),
      p2.trans (by rw [e]), p1.trans (by rw [e]; exact m1.trans hc)⟩
  · intro s now o hc ht hd
    obtain ⟨p1, p2, p3, p4, p5⟩ := adv_confused_proj_re s now o
    obtain ⟨m1, m2, m3, m4, m5⟩ := pre_confused_re s now o
    have e := confusedStep_expire (RE.preMacro s now o) now (m1.trans hc) (m2.trans ht)
      (by rw [m3, m4]; exact hd)
    exact ⟨p4.trans (by rw [e]), p5.trans (by rw [e]), p2.trans (by rw [e]),
      p1.trans (by rw [e])⟩
  · intro s now o hc ht hd
    obtain ⟨p1, p2, p3, p4, p5⟩ := adv_confused_proj_re s now o
    obtain ⟨m1, m2, m3, m4, m5⟩ := pre_confused_re s now o
    have e := confusedStep_wait (RE.preMacro s now o) now (m1.trans hc) (m2.trans ht)
      (by rw [m3, m4]; exact hd)
    exact ⟨p1.trans (by rw [e]; exact m1.trans hc), p2.trans (by rw [e]; exact m2.trans ht),
      p3.trans (by rw [e]; exact m3), p4.trans (by rw [e]; exact m5)⟩
  · intro s now o hc ht hd
    obtain ⟨p1, p2, p3, p4, p5⟩ := adv_confused_proj_an s now o
    obtain ⟨m1, m2, m3, m4, m5⟩ := pre_confused_an s now o
    have e := confusedStep_expire (AN.preMacro s now o) now (m1.trans hc) (m2.trans ht)
      (by rw [m3, m4]; exact hd)
    exact ⟨p4.trans (by rw [e]), p2.trans (by rw [e]), p1.trans (by rw [e])⟩

/-- C5 witness: the confusion phases at concrete states. -/
theorem C5_confusion_oneshot_witness :
    ((RE.advance { RE.init 128 64 with confused := true } 0 oracle0).1.hFlicker = true ∧
     (RE.advance { RE.init 128 64 with confused := true } 0 oracle0).1.hFlickerAmplitude
       = 20 ∧
     (RE.advance { RE.init 128 64 with confused := true } 0 oracle0).1.confused = true) ∧
    ((RE.advance { RE.init 128 64 with
        confused := true, confusedToggle := false } 600 oracle0).1.hFlicker = false ∧
     (RE.advance { RE.init 128 64 with
        confused := true, confusedToggle := false } 600 oracle0).1.confused = false) ∧
    ((RE.advance { RE.init 128 64 with
        confused := true, confusedToggle := false } 300 oracle0).1.confused = true) ∧
    (RE.anim_confused (RE.init 128 64)).confusedToggle = true ∧
    (AN.anim_confused confusedActive).confusedToggle = confusedActive.confusedToggle ∧
    ((AN.advance { AN.init 128 64 with
        confused := true, confusedToggle := false } 600 oracle0).1.confused = false) := by
  obtain ⟨ca, cb, cc, cd, ce, cf⟩ := C5_confusion_oneshot
  obtain ⟨a1, a2, a3, a4, a5⟩ :=
    ca { RE.init 128 64 with confused := true } 0 oracle0 rfl rfl
  obtain ⟨b1, b2, b3, b4⟩ :=
    cb { RE.init 128 64 with confused := true, confusedToggle := false } 600 oracle0
      rfl rfl (by norm_num [RE.init])
  obtain ⟨c1, c2, c3, c4⟩ :=
    cc { RE.init 128 64 with confused := true, confusedToggle := false } 300 oracle0
      rfl rfl (by norm_num [RE.init])
  obtain ⟨f1, f2, f3⟩ :=
    cf { AN.init 128 64 with confused := true, confusedToggle := false } 600 oracle0
      rfl rfl (by norm_num [AN.init])
  exact ⟨⟨a1, a2, a5⟩, ⟨b1, b4⟩, c1, (cd (RE.init 128 64)).2,
    (ce confusedActive).2, f3⟩

lemma mood_geom (s : Eyes) :
    (AN.moodStep s).eyeLy = s.eyeLy ∧
    (AN.moodStep s).eyeRy = s.eyeRy ∧
    (AN.moodStep s).eyeLheightCurrent = s.eyeLheightCurrent ∧
    (AN.moodStep s).eyeRheightCurrent = s.eyeRheightCurrent ∧
    (AN.moodStep s).eyeLheightOffset = s.eyeLheightOffset ∧
    (AN.moodStep s).eyeRheightOffset = s.eyeRheightOffset ∧
    (AN.moodStep s).eyeLx = s.eyeLx ∧
    (AN.moodStep s).eyeRx = s.eyeRx ∧
    (AN.moodStep s).eyeLwidthCurrent = s.eyeLwidthCurrent ∧
    (AN.moodStep s).eyeRwidthCurrent = s.eyeRwidthCurrent ∧
    (AN.moodStep s).eyeRxNext = s.eyeRxNext ∧
    (AN.moodStep s).eyeLborderRadiusCurrent = s.eyeLborderRadiusCurrent ∧
    (AN.moodStep s).eyeRborderRadiusCurrent = s.eyeRborderRadiusCurrent := by
  simp only [AN.moodStep]
  split_ifs <;>
    exact ⟨rfl, rfl, rfl, rfl, rfl, rfl, rfl, rfl, rfl, rfl, rfl, rfl, rfl⟩

/-- C3 counterexample: in anim.py the stored left-eye y is NOT updated by
the plain convergence step with zero transient offset: on the very first
tick from the 128x64 initial state (`eyeLy = eyeLyNext = 14`), the stored
`eyeLy` becomes 91/4 = 22.75 instead of (14 + 14) / 2 = 14, because the
vertical recentring term is folded into it. -/
theorem C3_counterexample :
    (AN.init 128 64).eyeLy = 14 ∧
    (AN.init 128 64).eyeLyNext = 14 ∧
    (AN.advance (AN.init 128 64) 0 oracle0).1.eyeLy = 91 / 4 ∧
    ¬((91 : ℚ) / 4 = (14 + 14) / 2) := by
  refine ⟨?_, ?_, ?_, by norm_num⟩
  · simp only [AN.init, pyFDiv2]
    norm_num [Rat.floor_def']
  · simp only [AN.init, pyFDiv2]
    norm_num [Rat.floor_def']
  · simp only [AN.advance, AN.init, AN.renderState, AN.moodStep, lidTweenStep,
      AN.tweenStep, AN.curiousStep, autoblinkStep, laughStep, confusedStep, idleStep,
      hFlickStep, vFlickStep, cyclopsStep, pyFDiv2]
    norm_num [Rat.floor_def']

/-- C3 amended: with the macro animations inactive, one roboeyes.py tick
updates every current/next pair by the convergence step
`current' = (current + next + transientOffset) / 2` — the transient
offset is the curious height offset for the height pairs and 0 for the
width, space, border-radius and position pairs — so each step exactly
halves the remaining distance when the offset is 0, and the step is
idempotent at the fixed point when the re-open rule cannot fire.  In the
anim.py variant the same holds except for the y pair, which additionally
receives the vertical recentring term each tick. -/
theorem C3_convergence_step :
    (∀ (s : Eyes) (now : ℚ) (o : Oracle),
      s.autoblinker = false → s.laugh = false → s.confused = false → s.idle = false →
      s.hFlicker = false → s.vFlicker = false → s.cyclops = false →
      (RE.advance s now o).1.eyeLheightCurrent
        = (s.eyeLheightCurrent + s.eyeLheightNext
            + (RE.advance s now o).1.eyeLheightOffset) / 2 ∧
      (RE.advance s now o).1.eyeRheightCurrent
        = (s.eyeRheightCurrent + s.eyeRheightNext
            + (RE.advance s now o).1.eyeRheightOffset) / 2 ∧
      (RE.advance s now o).1.eyeLwidthCurrent
        = (s.eyeLwidthCurrent + s.eyeLwidthNext) / 2 ∧
      (RE.advance s now o).1.eyeRwidthCurrent
        = (s.eyeRwidthCurrent + s.eyeRwidthNext) / 2 ∧
      (RE.advance s now o).1.spaceBetweenCurrent
        = (s.spaceBetweenCurrent + s.spaceBetweenNext) / 2 ∧
      (RE.advance s now o).1.eyeLborderRadiusCurrent
        = (s.eyeLborderRadiusCurrent + s.eyeLborderRadiusNext) / 2 ∧
      (RE.advance s now o).1.eyeRborderRadiusCurrent
        = (s.eyeRborderRadiusCurrent + s.eyeRborderRadiusNext) / 2 ∧
      (RE.advance s now o).1.eyeLx = (s.eyeLx + s.eyeLxNext) / 2 ∧
      (RE.advance s now o).1.eyeLy = (s.eyeLy + s.eyeLyNext) / 2 ∧
      (RE.advance s now o).1.eyeRxNext
        = s.eyeLxNext + (RE.advance s now o).1.eyeLwidthCurrent
            + (RE.advance s now o).1.spaceBetweenCurrent ∧
      (RE.advance s now o).1.eyeRx
        = (s.eyeRx + (RE.advance s now o).1.eyeRxNext) / 2 ∧
      (RE.advance s now o).1.eyeRy = (s.eyeRy + s.eyeLyNext) / 2 ∧
      (RE.advance s now o).1.eyeLwidthCurrent - s.eyeLwidthNext
        = (s.eyeLwidthCurrent - s.eyeLwidthNext) / 2 ∧
      (RE.advance s now o).1.eyeLx - s.eyeLxNext = (s.eyeLx - s.eyeLxNext) / 2) ∧
    (∀ (s : Eyes) (now : ℚ) (o : Oracle),
      s.autoblinker = false → s.laugh = false → s.confused = false → s.idle = false →
      s.hFlicker = false → s.vFlicker = false → s.cyclops = false → s.curious = false →
      s.eyeL_open = false → s.eyeR_open = false →
      s.eyeLheightNext = s.eyeLheightCurrent → s.eyeRheightNext = s.eyeRheightCurrent →
      s.eyeLwidthNext = s.eyeLwidthCurrent → s.eyeRwidthNext = s.eyeRwidthCurrent →
      s.spaceBetweenNext = s.spaceBetweenCurrent →
      s.eyeLxNext = s.eyeLx → s.eyeLyNext = s.eyeLy →
      s.eyeLborderRadiusNext = s.eyeLborderRadiusCurrent →
      s.eyeRborderRadiusNext = s.eyeRborderRadiusCurrent →
      s.eyeRx = s.eyeLxNext + s.eyeLwidthCurrent + s.spaceBetweenCurrent →
      s.eyeRy = s.eyeLyNext →
      (RE.advance s now o).1.eyeLheightCurrent = s.eyeLheightCurrent ∧
      (RE.advance s now o).1.eyeRheightCurrent = s.eyeRheightCurrent ∧
      (RE.advance s now o).1.eyeLwidthCurrent = s.eyeLwidthCurrent ∧
      (RE.advance s now o).1.eyeRwidthCurrent = s.eyeRwidthCurrent ∧
      (RE.advance s now o).1.spaceBetweenCurrent = s.spaceBetweenCurrent ∧
      (RE.advance s now o).1.eyeLx = s.eyeLx ∧
      (RE.advance s now o).1.eyeLy = s.eyeLy ∧
      (RE.advance s now o).1.eyeRx = s.eyeRx ∧
      (RE.advance s now o).1.eyeRy = s.eyeRy ∧
      (RE.advance s now o).1.eyeLborderRadiusCurrent = s.eyeLborderRadiusCurrent ∧
      (RE.advance s now o).1.eyeRborderRadiusCurrent = s.eyeRborderRadiusCurrent) ∧
    (∀ (s : Eyes) (now : ℚ) (o : Oracle),
      s.autoblinker = false → s.laugh = false → s.confused = false → s.idle = false →
      s.hFlicker = false → s.vFlicker = false → s.cyclops = false → s.curious = false →
      (AN.advance s now o).1.eyeLy
        = (s.eyeLy + s.eyeLyNext) / 2
          + (s.eyeLheightDefault - (s.eyeLheightCurrent + s.eyeLheightNext) / 2) / 2 ∧
      (AN.advance s now o).1.eyeLx = (s.eyeLx + s.eyeLxNext) / 2) := by
  refine ⟨?_, ?_, ?_⟩
  · intro s now o h1 h2 h3 h4 h5 h6 h7
    rw [advance_quiet_re s now o h1 h2 h3 h4 h5 h6 h7]
    simp only [RE.renderState, lidTweenStep, RE.tweenStep]
    rw [curious_eq_re s]
    exact ⟨rfl, rfl, rfl, rfl, rfl, rfl, rfl, rfl, rfl, rfl, rfl, rfl,
      by ring, by ring⟩
  · intro s now o h1 h2 h3 h4 h5 h6 h7 hcur hoL hoR e1 e2 e3 e4 e5 e6 e7 e8 e9 e10 e11
    rw [advance_quiet_re s now o h1 h2 h3 h4 h5 h6 h7]
    rw [curious_off_re s hcur]
    simp only [RE.renderState, lidTweenStep, RE.tweenStep]
    refine ⟨?_, ?_, ?_, ?_, ?_, ?_, ?_, ?_, ?_, ?_, ?_⟩ <;> linarith
  · intro s now o h1 h2 h3 h4 h5 h6 h7 hcur
    rw [advance_quiet_an s now o h1 h2 h3 h4 h5 h6 h7]
    rw [curious_off_an s hcur]
    have g := mood_geom (AN.tweenStep { s with eyeLheightOffset := 0, eyeRheightOffset := 0 })
    constructor
    · refine g.1.trans ?_
      simp only [AN.tweenStep]
      ring
    · refine (g.2.2.2.2.2.2.1).trans ?_
      simp only [AN.tweenStep]

/-- A fixed point of the roboeyes.py tween: the 128x64 initial state with
both eyes fully open. -/
def settled : Eyes :=
  { RE.init 128 64 with eyeLheightCurrent := 36, eyeRheightCurrent := 36 }

/-- C3 witness: the convergence equations at the 128x64 initial state and
the idempotence at an explicit fixed-point state. -/
theorem C3_convergence_step_witness :
    ((RE.advance (RE.init 128 64) 0 oracle0).1.eyeLwidthCurrent
       = ((RE.init 128 64).eyeLwidthCurrent + (RE.init 128 64).eyeLwidthNext) / 2 ∧
     (RE.advance (RE.init 128 64) 0 oracle0).1.eyeLy
       = ((RE.init 128 64).eyeLy + (RE.init 128 64).eyeLyNext) / 2) ∧
    (RE.advance settled 0 oracle0).1.eyeLx = settled.eyeLx ∧
    (AN.advance (AN.init 128 64) 0 oracle0).1.eyeLy
      = ((AN.init 128 64).eyeLy + (AN.init 128 64).eyeLyNext) / 2
        + ((AN.init 128 64).eyeLheightDefault
            - ((AN.init 128 64).eyeLheightCurrent + (AN.init 128 64).eyeLheightNext) / 2)
          / 2 := by
  obtain ⟨c1, c2, c3⟩ := C3_convergence_step
  obtain ⟨a1, a2, a3, arest⟩ := c1 (RE.init 128 64) 0 oracle0 rfl rfl rfl rfl rfl rfl rfl
  refine ⟨⟨a3, ?_⟩, ?_, (c3 (AN.init 128 64) 0 oracle0 rfl rfl rfl rfl rfl rfl rfl rfl).1⟩
  · exact arest.2.2.2.2.2.1
  · have h := c2 settled 0 oracle0 rfl rfl rfl rfl rfl rfl rfl rfl rfl rfl rfl rfl rfl
      rfl rfl rfl rfl rfl rfl (by simp only [settled, RE.init]) rfl
    exact h.2.2.2.2.2.1

lemma vflick_on_add (u : Eyes) (hv : u.vFlicker = true) (ha : u.vFlickerAlternate = true) :
    vFlickStep u =
      { u with eyeLy := u.eyeLy + u.vFlickerAmplitude,
               eyeRy := u.eyeRy + u.vFlickerAmplitude, vFlickerAlternate := false } := by
  simp [vFlickStep, hv, ha]

lemma advance_no_macro_h_re (s : Eyes) (now : ℚ) (o : Oracle)
    (h1 : s.autoblinker = false) (h2 : s.laugh = false) (h3 : s.confused = false)
    (h4 : s.idle = false) (h5 : s.hFlicker = false) (h7 : s.cyclops = false) :
    RE.advance s now o =
      (RE.renderState (vFlickStep (RE.tweenStep (RE.curiousStep s))),
       RE.frameOf (RE.renderState (vFlickStep (RE.tweenStep (RE.curiousStep s))))) := by
  have hc : (RE.tweenStep (RE.curiousStep s)).autoblinker = s.autoblinker ∧
      (RE.tweenStep (RE.curiousStep s)).laugh = s.laugh ∧
      (RE.tweenStep (RE.curiousStep s)).confused = s.confused ∧
      (RE.tweenStep (RE.curiousStep s)).idle = s.idle ∧
      (RE.tweenStep (RE.curiousStep s)).hFlicker = s.hFlicker := by
    rw [curious_eq_re s]
    exact ⟨rfl, rfl, rfl, rfl, rfl⟩
  obtain ⟨c1, c2, c3, c4, c5⟩ := hc
  have e1 := autoblink_off (RE.tweenStep (RE.curiousStep s)) now o (c1.trans h1)
  simp only [RE.advance, e1]
  rw [laugh_off _ _ (c2.trans h2), confused_off _ _ (c3.trans h3),
     idle_off _ _ _ (c4.trans h4), hflick_off _ (c5.trans h5),
     cyclops_off _ ((vf_fields _).1.trans (by rw [curious_eq_re s]; exact h7))]

/-- C9 counterexample: in anim.py the vertical recentring term is folded
into the stored y each tick: from the 128x64 initial state (stored
`eyeRy = 14`, target 14, no flicker), one tick stores
`eyeRy = 91/4 = 22.75`, not the pure tween value 14. -/
theorem C9_counterexample :
    (AN.init 128 64).eyeRy = 14 ∧
    (AN.init 128 64).eyeLyNext = 14 ∧
    (AN.init 128 64).vFlicker = false ∧
    (AN.advance (AN.init 128 64) 0 oracle0).1.eyeRy = 91 / 4 ∧
    ¬((91 : ℚ) / 4 = (14 + 14) / 2) := by
  refine ⟨?_, ?_, rfl, ?_, by norm_num⟩
  · simp only [AN.init, pyFDiv2]
    norm_num [Rat.floor_def']
  · simp only [AN.init, pyFDiv2]
    norm_num [Rat.floor_def']
  · simp only [AN.advance, AN.init, AN.renderState, AN.moodStep, lidTweenStep,
      AN.tweenStep, AN.curiousStep, autoblinkStep, laughStep, confusedStep, idleStep,
      hFlickStep, vFlickStep, cyclopsStep, pyFDiv2]
    norm_num [Rat.floor_def']

/-- C9 amended: in roboeyes.py the stored y positions are updated purely
by the position tween (plus the vertical flicker displacement when that
is enabled); the recentring term
`(heightDefault - heightCurrent) // 2 - heightOffset // 2` enters only
the drawn y coordinate of the frame.  In anim.py the recentring term is
instead added into the stored y every tick (the counterexample exhibits
the deviation). -/
theorem C9_draw_offset :
    (∀ (s : Eyes) (now : ℚ) (o : Oracle),
      s.autoblinker = false → s.laugh = false → s.confused = false → s.idle = false →
      s.hFlicker = false → s.vFlicker = false → s.cyclops = false →
      (RE.advance s now o).1.eyeLy = (s.eyeLy + s.eyeLyNext) / 2 ∧
      (RE.advance s now o).1.eyeRy = (s.eyeRy + s.eyeLyNext) / 2) ∧
    (∀ (s : Eyes) (now : ℚ) (o : Oracle),
      (RE.advance s now o).2 = RE.frameOf ((RE.advance s now o).1)) ∧
    (∀ t : Eyes,
      (RE.frameOf t).eyeL =
        Shape.rrect (pyIntQ t.eyeLx)
          (pyIntQ (t.eyeLy + (pyFDiv2 (t.eyeLheightDefault - t.eyeLheightCurrent)
            - pyFDiv2 t.eyeLheightOffset)))
          (pyIntQ t.eyeLx + pyIntQ t.eyeLwidthCurrent)
          (pyIntQ (t.eyeLy + (pyFDiv2 (t.eyeLheightDefault - t.eyeLheightCurrent)
            - pyFDiv2 t.eyeLheightOffset)) + pyIntQ t.eyeLheightCurrent)
          (pyIntQ t.eyeLborderRadiusCurrent) 1) ∧
    (∀ (s : Eyes) (now : ℚ) (o : Oracle),
      s.autoblinker = false → s.laugh = false → s.confused = false → s.idle = false →
      s.hFlicker = false → s.cyclops = false →
      s.vFlicker = true → s.vFlickerAlternate = true →
      (RE.advance s now o).1.eyeLy
        = (s.eyeLy + s.eyeLyNext) / 2 + s.vFlickerAmplitude) ∧
    (∀ (s : Eyes) (now : ℚ) (o : Oracle),
      s.autoblinker = false → s.laugh = false → s.confused = false → s.idle = false →
      s.hFlicker = false → s.vFlicker = false → s.cyclops = false → s.curious = false →
      (AN.advance s now o).1.eyeRy
        = (s.eyeRy + s.eyeLyNext) / 2
          + (s.eyeRheightDefault - (s.eyeRheightCurrent + s.eyeRheightNext) / 2) / 2) := by
  refine ⟨?_, fun s now o => rfl, fun t => rfl, ?_, ?_⟩
  · intro s now o h1 h2 h3 h4 h5 h6 h7
    rw [advance_quiet_re s now o h1 h2 h3 h4 h5 h6 h7]
    simp only [RE.renderState, lidTweenStep, RE.tweenStep]
    rw [curious_eq_re s]
    exact ⟨rfl, rfl⟩
  · intro s now o h1 h2 h3 h4 h5 h7 hv ha
    rw [advance_no_macro_h_re s now o h1 h2 h3 h4 h5 h7]
    have hv2 : (RE.tweenStep (RE.curiousStep s)).vFlicker = true := by
      rw [curious_eq_re s]; exact hv
    have ha2 : (RE.tweenStep (RE.curiousStep s)).vFlickerAlternate = true := by
      rw [curious_eq_re s]; exact ha
    rw [vflick_on_add _ hv2 ha2]
    simp only [RE.renderState, lidTweenStep, RE.tweenStep]
    rw [curious_eq_re s]
  · intro s now o h1 h2 h3 h4 h5 h6 h7 hcur
    rw [advance_quiet_an s now o h1 h2 h3 h4 h5 h6 h7]
    rw [curious_off_an s hcur]
    have g := mood_geom (AN.tweenStep { s with eyeLheightOffset := 0, eyeRheightOffset := 0 })
    refine (g.2.1).trans ?_
    simp only [AN.tweenStep]
    ring

/-- C9 witness: the stored-y tween law, the flicker displacement, and the
anim.py deviation at concrete states. -/
theorem C9_draw_offset_witness :
    ((RE.advance (RE.init 128 64) 0 oracle0).1.eyeLy
       = ((RE.init 128 64).eyeLy + (RE.init 128 64).eyeLyNext) / 2) ∧
    (RE.advance (RE.init 128 64) 0 oracle0).2
      = RE.frameOf ((RE.advance (RE.init 128 64) 0 oracle0).1) ∧
    ((RE.advance { RE.init 128 64 with vFlicker := true, vFlickerAlternate := true }
        0 oracle0).1.eyeLy
      = ({ RE.init 128 64 with vFlicker := true, vFlickerAlternate := true }.eyeLy
          + { RE.init 128 64 with vFlicker := true, vFlickerAlternate := true }.eyeLyNext)
          / 2
        + { RE.init 128 64 with vFlicker := true, vFlickerAlternate := true
          }.vFlickerAmplitude) ∧
    ((AN.advance (AN.init 128 64) 0 oracle0).1.eyeRy
      = ((AN.init 128 64).eyeRy + (AN.init 128 64).eyeLyNext) / 2
        + ((AN.init 128 64).eyeRheightDefault
            - ((AN.init 128 64).eyeRheightCurrent + (AN.init 128 64).eyeRheightNext) / 2)
          / 2) := by
  obtain ⟨p1, p2, p3, p4, p5⟩ := C9_draw_offset
  exact ⟨(p1 (RE.init 128 64) 0 oracle0 rfl rfl rfl rfl rfl rfl rfl).1,
    p2 (RE.init 128 64) 0 oracle0,
    p4 { RE.init 128 64 with vFlicker := true, vFlickerAlternate := true } 0 oracle0
      rfl rfl rfl rfl rfl rfl rfl rfl,
    p5 (AN.init 128 64) 0 oracle0 rfl rfl rfl rfl rfl rfl rfl rfl⟩

lemma moodStep_tired (t : Eyes) (ht : t.tired = true) (ha : t.angry = false)
    (hh : t.happy = false) :
    AN.moodStep t =
      { t with eyelidsTiredHeightNext := t.eyeLheightCurrent / 2,
               eyelidsAngryHeightNext := 0, eyelidsHappyBottomOffsetNext := 0 } := by
  simp [AN.moodStep, ht, ha, hh]

lemma moodStep_angry (t : Eyes) (ha : t.angry = true) (hh : t.happy = false) :
    AN.moodStep t =
      { t with eyelidsTiredHeightNext := 0,
               eyelidsAngryHeightNext := t.eyeLheightCurrent / 2,
               eyelidsHappyBottomOffsetNext := 0 } := by
  by_cases ht : t.tired = true <;> simp [AN.moodStep, ht, ha, hh]

lemma moodStep_happy (t : Eyes) (ht : t.tired = false) (ha : t.angry = false)
    (hh : t.happy = true) :
    AN.moodStep t =
      { t with eyelidsTiredHeightNext := 0, eyelidsAngryHeightNext := 0,
               eyelidsHappyBottomOffsetNext := t.eyeLheightCurrent / 2 } := by
  simp [AN.moodStep, ht, ha, hh]

/-- C1: the mood/eyelid compositor.  In anim.py, a tick with the tired
flag set derives `eyelidsTiredHeightNext = eyeLheightCurrent / 2` and
zeroes the other eyelid targets (symmetrically for angry and happy), each
eyelid magnitude tweens by halving toward its fresh target, and under a
steady eye height the tired magnitude halves its distance to
`heightCurrent / 2` each tick while the other magnitudes halve to 0.  In
roboeyes.py, `drawEyes` never reads the mood flags: the eyelid targets
are left untouched by every tick, so from the initial state they stay 0
and no eyelid ever appears — the claimed derivation is absent there. -/
theorem C1_mood_eyelids :
    (∀ (s : Eyes) (now : ℚ) (o : Oracle),
      s.autoblinker = false → s.laugh = false → s.confused = false → s.idle = false →
      s.hFlicker = false → s.vFlicker = false → s.cyclops = false →
      s.tired = true → s.angry = false → s.happy = false →
      (AN.advance s now o).1.eyelidsTiredHeightNext
        = (AN.advance s now o).1.eyeLheightCurrent / 2 ∧
      (AN.advance s now o).1.eyelidsAngryHeightNext = 0 ∧
      (AN.advance s now o).1.eyelidsHappyBottomOffsetNext = 0 ∧
      (AN.advance s now o).1.eyelidsTiredHeight
        = (s.eyelidsTiredHeight + (AN.advance s now o).1.eyelidsTiredHeightNext) / 2 ∧
      (AN.advance s now o).1.eyelidsAngryHeight = s.eyelidsAngryHeight / 2 ∧
      (AN.advance s now o).1.eyelidsHappyBottomOffset
        = s.eyelidsHappyBottomOffset / 2) ∧
    (∀ (s : Eyes) (now : ℚ) (o : Oracle),
      s.autoblinker = false → s.laugh = false → s.confused = false → s.idle = false →
      s.hFlicker = false → s.vFlicker = false → s.cyclops = false →
      s.angry = true → s.happy = false →
      (AN.advance s now o).1.eyelidsAngryHeightNext
        = (AN.advance s now o).1.eyeLheightCurrent / 2 ∧
      (AN.advance s now o).1.eyelidsTiredHeightNext = 0 ∧
      (AN.advance s now o).1.eyelidsHappyBottomOffsetNext = 0) ∧
    (∀ (s : Eyes) (now : ℚ) (o : Oracle),
      s.autoblinker = false → s.laugh = false → s.confused = false → s.idle = false →
      s.hFlicker = false → s.vFlicker = false → s.cyclops = false →
      s.tired = false → s.angry = false → s.happy = true →
      (AN.advance s now o).1.eyelidsHappyBottomOffsetNext
        = (AN.advance s now o).1.eyeLheightCurrent / 2 ∧
      (AN.advance s now o).1.eyelidsTiredHeightNext = 0 ∧
      (AN.advance s now o).1.eyelidsAngryHeightNext = 0) ∧
    (∀ (s : Eyes) (now : ℚ) (o : Oracle),
      s.autoblinker = false → s.laugh = false → s.confused = false → s.idle = false →
      s.hFlicker = false → s.vFlicker = false → s.cyclops = false → s.curious = false →
      s.tired = true → s.angry = false → s.happy = false →
      s.eyeLheightNext = s.eyeLheightCurrent →
      (AN.advance s now o).1.eyeLheightCurrent = s.eyeLheightCurrent ∧
      (AN.advance s now o).1.eyelidsTiredHeight - s.eyeLheightCurrent / 2
        = (s.eyelidsTiredHeight - s.eyeLheightCurrent / 2) / 2 ∧
      (AN.advance s now o).1.eyelidsAngryHeight = s.eyelidsAngryHeight / 2 ∧
      (AN.advance s now o).1.eyelidsHappyBottomOffset
        = s.eyelidsHappyBottomOffset / 2) ∧
    (∀ (s : Eyes) (now : ℚ) (o : Oracle),
      s.autoblinker = false → s.laugh = false → s.confused = false → s.idle = false →
      s.hFlicker = false → s.vFlicker = false → s.cyclops = false →
      (RE.advance s now o).1.eyelidsTiredHeightNext = s.eyelidsTiredHeightNext ∧
      (RE.advance s now o).1.eyelidsAngryHeightNext = s.eyelidsAngryHeightNext ∧
      (RE.advance s now o).1.eyelidsHappyBottomOffsetNext
        = s.eyelidsHappyBottomOffsetNext ∧
      (RE.advance s now o).1.eyelidsTiredHeight
        = (s.eyelidsTiredHeight + s.eyelidsTiredHeightNext) / 2) ∧
    ((RE.setMood (RE.init 128 64) 1).tired = true ∧
     (RE.advance (RE.setMood (RE.init 128 64) 1) 0 oracle0).1.eyelidsTiredHeightNext
       = 0 ∧
     (RE.advance (RE.setMood (RE.init 128 64) 1) 0 oracle0).1.eyelidsTiredHeight = 0) := by
  refine ⟨?_, ?_, ?_, ?_, ?_, ?_⟩
  · intro s now o h1 h2 h3 h4 h5 h6 h7 htd han hhp
    rw [advance_quiet_an s now o h1 h2 h3 h4 h5 h6 h7]
    have ft : (AN.tweenStep (AN.curiousStep s)).tired = true := by
      rw [curious_eq_an s]; exact htd
    have fa : (AN.tweenStep (AN.curiousStep s)).angry = false := by
      rw [curious_eq_an s]; exact han
    have fh : (AN.tweenStep (AN.curiousStep s)).happy = false := by
      rw [curious_eq_an s]; exact hhp
    simp only [AN.renderState]
    rw [moodStep_tired _ ft fa fh]
    refine ⟨rfl, rfl, rfl, ?_, ?_, ?_⟩
    · rw [curious_eq_an s]; rfl
    · rw [curious_eq_an s]; show (s.eyelidsAngryHeight + 0) / 2 = s.eyelidsAngryHeight / 2
      ring
    · rw [curious_eq_an s]
      show (s.eyelidsHappyBottomOffset + 0) / 2 = s.eyelidsHappyBottomOffset / 2
      ring
  · intro s now o h1 h2 h3 h4 h5 h6 h7 han hhp
    rw [advance_quiet_an s now o h1 h2 h3 h4 h5 h6 h7]
    have fa : (AN.tweenStep (AN.curiousStep s)).angry = true := by
      rw [curious_eq_an s]; exact han
    have fh : (AN.tweenStep (AN.curiousStep s)).happy = false := by
      rw [curious_eq_an s]; exact hhp
    simp only [AN.renderState]
    rw [moodStep_angry _ fa fh]
    exact ⟨rfl, rfl, rfl⟩
  · intro s now o h1 h2 h3 h4 h5 h6 h7 htd han hhp
    rw [advance_quiet_an s now o h1 h2 h3 h4 h5 h6 h7]
    have ft : (AN.tweenStep (AN.curiousStep s)).tired = false := by
      rw [curious_eq_an s]; exact htd
    have fa : (AN.tweenStep (AN.curiousStep s)).angry = false := by
      rw [curious_eq_an s]; exact han
    have fh : (AN.tweenStep (AN.curiousStep s)).happy = true := by
      rw [curious_eq_an s]; exact hhp
    simp only [AN.renderState]
    rw [moodStep_happy _ ft fa fh]
    exact ⟨rfl, rfl, rfl⟩
  · intro s now o h1 h2 h3 h4 h5 h6 h7 hcur htd han hhp hsteady
    rw [advance_quiet_an s now o h1 h2 h3 h4 h5 h6 h7]
    rw [curious_off_an s hcur]
    have ft : (AN.tweenStep { s with eyeLheightOffset := 0, eyeRheightOffset := 0 }).tired = true := htd
    have fa : (AN.tweenStep { s with eyeLheightOffset := 0, eyeRheightOffset := 0 }).angry = false := han
    have fh : (AN.tweenStep { s with eyeLheightOffset := 0, eyeRheightOffset := 0 }).happy = false := hhp
    simp only [AN.renderState]
    rw [moodStep_tired _ ft fa fh]
    simp only [lidTweenStep, AN.tweenStep]
    refine ⟨by rw [hsteady]; ring, by rw [hsteady]; ring, by ring, by ring⟩
  · intro s now o h1 h2 h3 h4 h5 h6 h7
    rw [advance_quiet_re s now o h1 h2 h3 h4 h5 h6 h7]
    simp only [RE.renderState, lidTweenStep, RE.tweenStep]
    rw [curious_eq_re s]
    exact ⟨rfl, rfl, rfl, rfl⟩
  · refine ⟨rfl, rfl, ?_⟩
    show ((0 : ℚ) + 0) / 2 = 0
    norm_num

/-- C1 witness: the eyelid target derivation at concrete moody states. -/
theorem C1_mood_eyelids_witness :
    ((AN.advance (AN.setMood (AN.init 128 64) 1) 0 oracle0).1.eyelidsTiredHeightNext
       = (AN.advance (AN.setMood (AN.init 128 64) 1) 0 oracle0).1.eyeLheightCurrent / 2 ∧
     (AN.advance (AN.setMood (AN.init 128 64) 1) 0 oracle0).1.eyelidsAngryHeightNext
       = 0) ∧
    (AN.advance (AN.setMood (AN.init 128 64) 2) 0 oracle0).1.eyelidsAngryHeightNext
      = (AN.advance (AN.setMood (AN.init 128 64) 2) 0 oracle0).1.eyeLheightCurrent / 2 ∧
    (AN.advance (AN.setMood (AN.init 128 64) 3) 0 oracle0).1.eyelidsHappyBottomOffsetNext
      = (AN.advance (AN.setMood (AN.init 128 64) 3) 0 oracle0).1.eyeLheightCurrent / 2 ∧
    (AN.advance { AN.setMood (AN.init 128 64) 1 with eyeLheightCurrent := 36 } 0
        oracle0).1.eyelidsTiredHeight
        - { AN.setMood (AN.init 128 64) 1 with eyeLheightCurrent := 36 }.eyeLheightCurrent
          / 2
      = ({ AN.setMood (AN.init 128 64) 1 with
            eyeLheightCurrent := 36 }.eyelidsTiredHeight
          - { AN.setMood (AN.init 128 64) 1 with eyeLheightCurrent := 36
            }.eyeLheightCurrent / 2) / 2 ∧
    (RE.advance (RE.setMood (RE.init 128 64) 1) 0 oracle0).1.eyelidsTiredHeightNext
      = (RE.setMood (RE.init 128 64) 1).eyelidsTiredHeightNext := by
  obtain ⟨p1, p2, p3, p4, p5, p6⟩ := C1_mood_eyelids
  obtain ⟨a1, a2, a3, a4, a5, a6⟩ :=
    p1 (AN.setMood (AN.init 128 64) 1) 0 oracle0 rfl rfl rfl rfl rfl rfl rfl rfl rfl rfl
  obtain ⟨b1, b2, b3⟩ :=
    p2 (AN.setMood (AN.init 128 64) 2) 0 oracle0 rfl rfl rfl rfl rfl rfl rfl rfl rfl
  obtain ⟨c1, c2, c3⟩ :=
    p3 (AN.setMood (AN.init 128 64) 3) 0 oracle0 rfl rfl rfl rfl rfl rfl rfl rfl rfl rfl
  obtain ⟨d1, d2, d3, d4⟩ :=
    p4 { AN.setMood (AN.init 128 64) 1 with eyeLheightCurrent := 36 } 0 oracle0
      rfl rfl rfl rfl rfl rfl rfl rfl rfl rfl rfl rfl
  obtain ⟨e1, e2, e3, e4⟩ :=
    p5 (RE.setMood (RE.init 128 64) 1) 0 oracle0 rfl rfl rfl rfl rfl rfl rfl
  exact ⟨⟨a1, a2⟩, b1, c1, d2, e1⟩

/-- C2: the re-open rule and the blink shape.  `close();open()` leaves
the height target at 1 with the open flag set; while the tweened height
is still above 1 the tick strictly decreases it (never below 1) and keeps
the target at 1; once the height has reached 1 (+ offset 0), the tick
retargets the height to its default; and with the default target the
height strictly grows back while staying below the default — a visible
blink, not a no-op.  Stated for both eyes of roboeyes.py, with the
macro animations off; anim.py lines 352-358 are character-identical. -/
theorem C2_blink_reopen :
    (∀ s : Eyes,
      (openEyes (close s true true) true true).eyeLheightNext = 1 ∧
      (openEyes (close s true true) true true).eyeL_open = true ∧
      (openEyes (close s true true) true true).eyeRheightNext = 1 ∧
      (openEyes (close s true true) true true).eyeR_open = true) ∧
    (∀ (s : Eyes) (now : ℚ) (o : Oracle),
      s.autoblinker = false → s.laugh = false → s.confused = false → s.idle = false →
      s.hFlicker = false → s.vFlicker = false → s.cyclops = false → s.curious = false →
      s.eyeL_open = true → s.eyeR_open = true →
      (s.eyeLheightCurrent + s.eyeLheightNext) / 2 ≤ 1 →
      (s.eyeRheightCurrent + s.eyeRheightNext) / 2 ≤ 1 →
      (RE.advance s now o).1.eyeLheightNext = s.eyeLheightDefault ∧
      (RE.advance s now o).1.eyeRheightNext = s.eyeRheightDefault) ∧
    (∀ (s : Eyes) (now : ℚ) (o : Oracle),
      s.autoblinker = false → s.laugh = false → s.confused = false → s.idle = false →
      s.hFlicker = false → s.vFlicker = false → s.cyclops = false → s.curious = false →
      s.eyeL_open = true → s.eyeR_open = true →
      s.eyeLheightNext = 1 → s.eyeRheightNext = 1 →
      1 < s.eyeLheightCurrent → 1 < s.eyeRheightCurrent →
      (RE.advance s now o).1.eyeLheightCurrent = (s.eyeLheightCurrent + 1) / 2 ∧
      1 < (RE.advance s now o).1.eyeLheightCurrent ∧
      (RE.advance s now o).1.eyeLheightCurrent < s.eyeLheightCurrent ∧
      (RE.advance s now o).1.eyeLheightNext = 1 ∧
      (RE.advance s now o).1.eyeL_open = true ∧
      (RE.advance s now o).1.eyeRheightCurrent = (s.eyeRheightCurrent + 1) / 2 ∧
      1 < (RE.advance s now o).1.eyeRheightCurrent ∧
      (RE.advance s now o).1.eyeRheightCurrent < s.eyeRheightCurrent ∧
      (RE.advance s now o).1.eyeRheightNext = 1 ∧
      (RE.advance s now o).1.eyeR_open = true) ∧
    (∀ (s : Eyes) (now : ℚ) (o : Oracle),
      s.autoblinker = false → s.laugh = false → s.confused = false → s.idle = false →
      s.hFlicker = false → s.vFlicker = false → s.cyclops = false → s.curious = false →
      s.eyeL_open = true → s.eyeR_open = true →
      s.eyeLheightNext = 1 → s.eyeRheightNext = 1 →
      s.eyeLheightCurrent ≤ 1 → s.eyeRheightCurrent ≤ 1 →
      (RE.advance s now o).1.eyeLheightCurrent = (s.eyeLheightCurrent + 1) / 2 ∧
      (RE.advance s now o).1.eyeLheightCurrent ≤ 1 ∧
      (RE.advance s now o).1.eyeLheightNext = s.eyeLheightDefault ∧
      (RE.advance s now o).1.eyeRheightNext = s.eyeRheightDefault) ∧
    (∀ (s : Eyes) (now : ℚ) (o : Oracle),
      s.autoblinker = false → s.laugh = false → s.confused = false → s.idle = false →
      s.hFlicker = false → s.vFlicker = false → s.cyclops = false → s.curious = false →
      s.eyeL_open = true → s.eyeR_open = true →
      s.eyeLheightNext = s.eyeLheightDefault → s.eyeRheightNext = s.eyeRheightDefault →
      1 ≤ s.eyeLheightCurrent → s.eyeLheightCurrent < s.eyeLheightDefault →
      1 ≤ s.eyeRheightCurrent → s.eyeRheightCurrent < s.eyeRheightDefault →
      (RE.advance s now o).1.eyeLheightCurrent
        = (s.eyeLheightCurrent + s.eyeLheightDefault) / 2 ∧
      s.eyeLheightCurrent < (RE.advance s now o).1.eyeLheightCurrent ∧
      (RE.advance s now o).1.eyeLheightCurrent < s.eyeLheightDefault ∧
      (RE.advance s now o).1.eyeLheightNext = s.eyeLheightDefault ∧
      (RE.advance s now o).1.eyeRheightCurrent
        = (s.eyeRheightCurrent + s.eyeRheightDefault) / 2 ∧
      s.eyeRheightCurrent < (RE.advance s now o).1.eyeRheightCurrent ∧
      (RE.advance s now o).1.eyeRheightCurrent < s.eyeRheightDefault ∧
      (RE.advance s now o).1.eyeRheightNext = s.eyeRheightDefault) := by
  refine ⟨fun s => ⟨rfl, rfl, rfl, rfl⟩, ?_, ?_, ?_, ?_⟩
  · intro s now o h1 h2 h3 h4 h5 h6 h7 hcur hoL hoR hleL hleR
    rw [advance_quiet_re s now o h1 h2 h3 h4 h5 h6 h7, curious_off_re s hcur]
    simp only [RE.renderState, lidTweenStep, RE.tweenStep]
    constructor
    · split_ifs with hc
      · rfl
      · exact absurd ⟨hoL, by linarith⟩ hc
    · split_ifs with hc
      · rfl
      · exact absurd ⟨hoR, by linarith⟩ hc
  · intro s now o h1 h2 h3 h4 h5 h6 h7 hcur hoL hoR hnL hnR hgL hgR
    rw [advance_quiet_re s now o h1 h2 h3 h4 h5 h6 h7, curious_off_re s hcur]
    simp only [RE.renderState, lidTweenStep, RE.tweenStep]
    refine ⟨by linarith, by linarith, by linarith, ?_, hoL,
      by linarith, by linarith, by linarith, ?_, hoR⟩
    · split_ifs with hc
      · exfalso; linarith [hc.2]
      · exact hnL
    · split_ifs with hc
      · exfalso; linarith [hc.2]
      · exact hnR
  · intro s now o h1 h2 h3 h4 h5 h6 h7 hcur hoL hoR hnL hnR hleL hleR
    rw [advance_quiet_re s now o h1 h2 h3 h4 h5 h6 h7, curious_off_re s hcur]
    simp only [RE.renderState, lidTweenStep, RE.tweenStep]
    refine ⟨by linarith, by linarith, ?_, ?_⟩
    · split_ifs with hc
      · rfl
      · exact absurd ⟨hoL, by linarith⟩ hc
    · split_ifs with hc
      · rfl
      · exact absurd ⟨hoR, by linarith⟩ hc
  · intro s now o h1 h2 h3 h4 h5 h6 h7 hcur hoL hoR hnL hnR hgeL hltL hgeR hltR
    rw [advance_quiet_re s now o h1 h2 h3 h4 h5 h6 h7, curious_off_re s hcur]
    simp only [RE.renderState, lidTweenStep, RE.tweenStep]
    refine ⟨by linarith, by linarith, by linarith, ?_, by linarith, by linarith,
      by linarith, ?_⟩
    · split_ifs with hc
      · rfl
      · exact hnL
    · split_ifs with hc
      · rfl
      · exact hnR

/-- The 128x64 initial state after `close(); open()` on both eyes. -/
def closedOpened : Eyes := openEyes (close (RE.init 128 64) true true) true true

/-- The settled open state after `close(); open()` on both eyes. -/
def settledBlink : Eyes := openEyes (close settled true true) true true

/-- The 128x64 initial state with both open flags set (the growth phase
of a blink). -/
def growing : Eyes := { RE.init 128 64 with eyeL_open := true, eyeR_open := true }

/-- C2 witness: the blink phases at concrete states. -/
theorem C2_blink_reopen_witness :
    (settledBlink.eyeLheightNext = 1 ∧ settledBlink.eyeL_open = true) ∧
    ((RE.advance settledBlink 0 oracle0).1.eyeLheightCurrent
       = (settledBlink.eyeLheightCurrent + 1) / 2 ∧
     1 < (RE.advance settledBlink 0 oracle0).1.eyeLheightCurrent ∧
     (RE.advance settledBlink 0 oracle0).1.eyeLheightCurrent
       < settledBlink.eyeLheightCurrent ∧
     (RE.advance settledBlink 0 oracle0).1.eyeLheightNext = 1) ∧
    ((RE.advance closedOpened 0 oracle0).1.eyeLheightCurrent
       = (closedOpened.eyeLheightCurrent + 1) / 2 ∧
     (RE.advance closedOpened 0 oracle0).1.eyeLheightCurrent ≤ 1 ∧
     (RE.advance closedOpened 0 oracle0).1.eyeLheightNext
       = closedOpened.eyeLheightDefault) ∧
    ((RE.advance growing 0 oracle0).1.eyeLheightCurrent
      = (growing.eyeLheightCurrent + growing.eyeLheightDefault) / 2 ∧
     growing.eyeLheightCurrent
       < (RE.advance growing 0 oracle0).1.eyeLheightCurrent) := by
  obtain ⟨p0, p1, p2, p3, p4⟩ := C2_blink_reopen
  obtain ⟨q0a, q0b, q0c, q0d⟩ := p0 settled
  obtain ⟨a1, a2, a3, a4, a5, arest⟩ :=
    p2 settledBlink 0 oracle0 rfl rfl rfl rfl rfl rfl rfl rfl rfl rfl rfl rfl
      (by decide) (by decide)
  obtain ⟨b1, b2, b3, b4⟩ :=
    p3 closedOpened 0 oracle0 rfl rfl rfl rfl rfl rfl rfl rfl rfl rfl rfl rfl
      (by decide) (by decide)
  obtain ⟨c1, c2, crest⟩ :=
    p4 growing 0 oracle0 rfl rfl rfl rfl rfl rfl rfl rfl rfl rfl rfl rfl
      (by decide) (by decide) (by decide) (by decide)
  exact ⟨⟨q0a, q0b⟩, ⟨a1, a2, a3, a4⟩, ⟨b1, b2, b3⟩, ⟨c1, c2⟩⟩
